import Mathlib

/-
Verification of the GitHub-facade service (`github_api.py`) against its
natural-language specification.

The embedding is shallow and executable:

* Upstream JSON is modelled by the inductive `JVal` (numbers as `Int`: every
  numeric field consumed by the service is an integral count).
* Python dictionary access is modelled exactly: `d[k]` (`pyIndex`) fails on a
  missing key or a non-dict receiver, `d.get(k, default)` (`pyGet`) never
  fails on a dict and substitutes the default only when the key is absent,
  `k in d` (`pyContains`) tests key membership, truthiness (`pyTruthy`)
  follows Python.
* Fallible Python code (a `KeyError`, `TypeError`, `AttributeError`, or an
  exception raised by the HTTP client) is modelled by `Except String`; the
  exact exception message text is not modelled, only the fact of failure,
  and the evaluation order of the source is preserved so the same input
  fails in the model iff it fails in the source (for the JSON shapes the
  service can receive).
* One HTTP exchange is a `HttpResp` (status code plus parsed JSON body); a
  call that can also fail in transport is an `Except String HttpResp`.  The
  network is abstracted by an `Oracle` holding one response slot per logical
  upstream call an endpoint makes; `await client.get(url)` on a transport
  failure re-raises, which the model renders by binding the `Except`.
* `str.lower()` is modelled by ASCII case folding (`strLower`), and the
  Python substring test `a in b` by `strHas`.
-/

/-- JSON values as parsed from upstream responses. -/
inductive JVal where
  | jNull : JVal
  | jBool : Bool → JVal
  | jNum : Int → JVal
  | jStr : String → JVal
  | jArr : List JVal → JVal
  | jObj : List (String × JVal) → JVal

mutual

/-- Structural equality of JSON values, modelling Python `==` on parsed JSON.
Field lists are compared in order (the service only ever compares scalars,
where this coincides with Python). -/
def jbeq : JVal → JVal → Bool
  | .jNull, .jNull => true
  | .jBool a, .jBool b => a == b
  | .jNum a, .jNum b => a == b
  | .jStr a, .jStr b => a == b
  | .jArr a, .jArr b => jbeqList a b
  | .jObj a, .jObj b => jbeqFields a b
  | _, _ => false

/-- Pointwise equality of JSON arrays. -/
def jbeqList : List JVal → List JVal → Bool
  | [], [] => true
  | x :: xs, y :: ys => jbeq x y && jbeqList xs ys
  | _, _ => false

/-- Pointwise equality of JSON object field lists. -/
def jbeqFields : List (String × JVal) → List (String × JVal) → Bool
  | [], [] => true
  | (k, v) :: xs, (l, w) :: ys => k == l && jbeq v w && jbeqFields xs ys
  | _, _ => false

end

/-- ASCII lowering of one character, the fragment of Python `str.lower()`
exercised by the service (label names). -/
def charLower (c : Char) : Char :=
  if c.isUpper then Char.ofNat (c.toNat + 32) else c

/-- ASCII lowering of a string, modelling Python `str.lower()`. -/
def strLower (s : String) : String := String.mk (s.data.map charLower)

/-- Contiguous-sublist test on character lists. -/
def containsSub : List Char → List Char → Bool
  | [], needle => needle.isEmpty
  | c :: t, needle => needle.isPrefixOf (c :: t) || containsSub t needle

/-- Python substring containment `sub in s`. -/
def strHas (s sub : String) : Bool := containsSub s.data sub.data

/-- First-match lookup in the field list of a JSON object (JSON objects from the
upstream API have pairwise-distinct keys, as Python dicts do). -/
def lookupField : List (String × JVal) → String → Option JVal
  | [], _ => none
  | (k, v) :: rest, key => if k = key then some v else lookupField rest key

/-- Python subscription `d[key]`: `KeyError` on a missing key, `TypeError`
when the receiver is not a dict. -/
def pyIndex : JVal → String → Except String JVal
  | .jObj fs, key =>
    match lookupField fs key with
    | some v => .ok v
    | none => .error ("KeyError: " ++ key)
  | _, _ => .error "TypeError: not a dict"

/-- Python `d.get(key, default)`: never fails on a dict (the default is used
only when the key is absent), `AttributeError` on a non-dict receiver. -/
def pyGet : JVal → String → JVal → Except String JVal
  | .jObj fs, key, dflt => .ok ((lookupField fs key).getD dflt)
  | _, _, _ => .error "AttributeError: no attribute get"

/-- Python truthiness of a JSON value. -/
def pyTruthy : JVal → Bool
  | .jNull => false
  | .jBool b => b
  | .jNum n => n != 0
  | .jStr s => !s.isEmpty
  | .jArr xs => !xs.isEmpty
  | .jObj fs => !fs.isEmpty

/-- Python `key in v` as a total function on the receivers for which it is
defined: key membership for dicts, substring for strings, element membership
for lists; `none` models the `TypeError` raised on other receivers. -/
def containsKeyB : JVal → String → Option Bool
  | .jObj fs, key => some (lookupField fs key).isSome
  | .jStr s, key => some (strHas s key)
  | .jArr xs, key => some (xs.any fun v => jbeq v (.jStr key))
  | _, _ => none

/-- Python `key in v`, failing with `TypeError` on non-container receivers. -/
def pyContains (v : JVal) (key : String) : Except String Bool :=
  match containsKeyB v key with
  | some b => .ok b
  | none => .error "TypeError: argument not iterable"

/-- Python `str(v)` for the value shapes it is applied to by the service
(scalars); the `repr` of containers is not modelled. -/
def pyToStr : JVal → Except String String
  | .jNum n => .ok (toString n)
  | .jStr s => .ok s
  | .jBool b => .ok (if b then "True" else "False")
  | .jNull => .ok "None"
  | _ => .error "container repr not modelled"

/-- Python `s[:7]` on the shapes the service slices (a commit hash string). -/
def pyTake7 : JVal → Except String JVal
  | .jStr s => .ok (.jStr (s.take 7))
  | .jArr xs => .ok (.jArr (xs.take 7))
  | _ => .error "TypeError: not subscriptable"

/-- Python `len(v)`. -/
def pyLen : JVal → Except String Int
  | .jArr xs => .ok xs.length
  | .jStr s => .ok s.length
  | .jObj fs => .ok fs.length
  | _ => .error "TypeError: has no len"

/-- Coercion used by arithmetic contexts (`sum`): Python ints and bools are
numbers, everything else raises `TypeError`. -/
def asNum : JVal → Except String Int
  | .jNum n => .ok n
  | .jBool b => .ok (if b then 1 else 0)
  | _ => .error "TypeError: not a number"

/-- Requirement that a value is a JSON array, as needed by Python `for`-loops
and slicing in the service (iteration over a non-list JSON body raises in
the source at the first element access; the model raises at the loop head). -/
def asArr : JVal → Except String (List JVal)
  | .jArr xs => .ok xs
  | _ => .error "TypeError: not a list"

/-- Python `v is hashable` (set elements): JSON containers are unhashable. -/
def pyHashable : JVal → Bool
  | .jArr _ => false
  | .jObj _ => false
  | _ => true

/-- First-occurrence deduplication with the `seen` accumulator. -/
def dedupAux : List JVal → List JVal → List JVal
  | _, [] => []
  | seen, x :: xs =>
    if seen.any (jbeq x) then dedupAux seen xs
    else x :: dedupAux (x :: seen) xs

/-- Distinct elements of a list, modelling Python `set(...)` contents. -/
def dedupJ (xs : List JVal) : List JVal := dedupAux [] xs

/-- Python `len(set(xs))`: the number of distinct elements; raises on
unhashable (container) elements as `set` does. -/
def pySetSize (xs : List JVal) : Except String Int :=
  if xs.all pyHashable then .ok ((dedupJ xs).length : Int)
  else .error "TypeError: unhashable type"

/-- Python `list(set(xs))`: the distinct elements (the model fixes
first-occurrence order; the source order is unspecified). -/
def pySetList (xs : List JVal) : Except String (List JVal) :=
  if xs.all pyHashable then .ok (dedupJ xs)
  else .error "TypeError: unhashable type"

/-- One upstream HTTP exchange: status code and parsed JSON body. -/
structure HttpResp where
  status : Nat
  body : JVal

/-- Comprehension `[x[key] for x in xs]`. -/
def mapIndexKey (key : String) : List JVal → Except String (List JVal)
  | [] => .ok []
  | x :: xs => do
    let v ← pyIndex x key
    let vs ← mapIndexKey key xs
    .ok (v :: vs)

/-- Comprehension `[f x for x in xs]` for a fallible element translation. -/
def mapE (f : JVal → Except String JVal) : List JVal → Except String (List JVal)
  | [] => .ok []
  | x :: xs => do
    let y ← f x
    let ys ← mapE f xs
    .ok (y :: ys)

/-- Python `sum(x.get(key, 0) for x in xs)`. -/
def sumGetNum (key : String) : List JVal → Except String Int
  | [] => .ok 0
  | x :: xs => do
    let v ← pyGet x key (.jNum 0)
    let n ← asNum v
    let rest ← sumGetNum key xs
    .ok (n + rest)

/-- Comprehension `[x for x in xs if truthiness of x[key] equals keep]`. -/
def filterField (key : String) (keep : Bool) : List JVal → Except String (List JVal)
  | [] => .ok []
  | x :: xs => do
    let v ← pyIndex x key
    let rest ← filterField key keep xs
    .ok (if pyTruthy v = keep then x :: rest else rest)

/-- The `not GITHUB_TOKEN` guard of every data endpoint: true when the
credential is unset (or set to the falsy empty string). -/
def tokenMissing : Option String → Bool
  | none => true
  | some s => s.isEmpty

/-- Error body returned by every data endpoint when the credential is unset. -/
def tokenErrorBody : JVal := .jObj [("error", .jStr "GitHub token not configured")]

/-- Generator `any("sub" in label["name"].lower() for label in labels)` from
the priority derivation in `get_repository_issues` (lines 356-358),
including its left-to-right short-circuit evaluation. -/
def anyLabelHas (sub : String) : List JVal → Except String Bool
  | [] => .ok false
  | l :: ls => do
    let nameV ← pyIndex l "name"
    let nameS ←
      match nameV with
      | .jStr s => Except.ok (strLower s)
      | _ => Except.error "AttributeError: no attribute lower"
    if strHas nameS sub then .ok true else anyLabelHas sub ls

/-- Priority derivation of `get_repository_issues` (lines 355-359):
medium unless some label name contains "high" (case-insensitive), else
unless some label name contains "low". -/
def issuePriority (labels : List JVal) : Except String String := do
  let hi ← anyLabelHas "high" labels
  if hi then .ok "high"
  else do
    let lo ← anyLabelHas "low" labels
    if lo then .ok "low" else .ok "medium"

/-- Milestone field computation of the issue translation (line 376):
`issue.get("milestone", ...).get("title") if issue.get("milestone") else None`,
given the already-evaluated condition value. -/
def milestoneOf (issue : JVal) (msV : JVal) : Except String JVal :=
  if pyTruthy msV then do
    let ms ← pyGet issue "milestone" (.jObj [])
    pyGet ms "title" .jNull
  else .ok .jNull

/-- Avatar field computation of the commit translations (lines 279 and 295):
`commit["author"]["avatar_url"] if commit.get("author") else None`, given
the already-evaluated condition value. -/
def commitAvatar (avatarCond : JVal) : Except String JVal :=
  if pyTruthy avatarCond then pyIndex avatarCond "avatar_url" else .ok .jNull

/-- Issue translation of `get_repository_issues` (lines 354-388): the
priority computation followed by the summary dict literal, with source
field order and evaluation order preserved. -/
def translateIssue (repo_name : String) (issue : JVal) : Except String JVal := do
  let labelsV ← pyGet issue "labels" (.jArr [])
  let labels ← asArr labelsV
  let priority ← issuePriority labels
  let number ← pyIndex issue "number"
  let idStr ← pyToStr number
  let title ← pyIndex issue "title"
  let user ← pyIndex issue "user"
  let authorLogin ← pyIndex user "login"
  let state ← pyIndex issue "state"
  let htmlUrl ← pyIndex issue "html_url"
  let createdAt ← pyIndex issue "created_at"
  let updatedAt ← pyIndex issue "updated_at"
  let body ← pyGet issue "body" (.jStr "")
  let labelNames ← mapIndexKey "name" labels
  let assigneesV ← pyGet issue "assignees" (.jArr [])
  let assigneesList ← asArr assigneesV
  let assigneeLogins ← mapIndexKey "login" assigneesList
  let comments ← pyGet issue "comments" (.jNum 0)
  let avatar ← pyIndex user "avatar_url"
  let msV ← pyGet issue "milestone" .jNull
  let milestone ← milestoneOf issue msV
  let locked ← pyGet issue "locked" (.jBool false)
  let closedAt ← pyGet issue "closed_at" .jNull
  let reactions ← pyGet issue "reactions" (.jObj [])
  let rTotal ← pyGet reactions "total_count" (.jNum 0)
  let rUp ← pyGet reactions "+1" (.jNum 0)
  let rDown ← pyGet reactions "-1" (.jNum 0)
  let rLaugh ← pyGet reactions "laugh" (.jNum 0)
  let rHooray ← pyGet reactions "hooray" (.jNum 0)
  let rConfused ← pyGet reactions "confused" (.jNum 0)
  let rHeart ← pyGet reactions "heart" (.jNum 0)
  .ok (.jObj [
    ("id", .jStr idStr), ("title", title), ("author", authorLogin),
    ("status", state), ("priority", .jStr priority),
    ("repository", .jStr repo_name), ("url", htmlUrl),
    ("createdAt", createdAt), ("updatedAt", updatedAt),
    ("description", body), ("labels", .jArr labelNames),
    ("assignees", .jArr assigneeLogins), ("comments", comments),
    ("author_avatar", avatar), ("milestone", milestone),
    ("locked", locked), ("closed_at", closedAt),
    ("reactions", .jObj [
      ("total_count", rTotal), ("thumbs_up", rUp), ("thumbs_down", rDown),
      ("laugh", rLaugh), ("hooray", rHooray), ("confused", rConfused),
      ("heart", rHeart)])])

/-- Pull-request translation of `get_repository_pull_requests`
(lines 313-335), with source field order preserved. -/
def translatePullRequest (repo_name : String) (pr : JVal) : Except String JVal := do
  let number ← pyIndex pr "number"
  let idStr ← pyToStr number
  let title ← pyIndex pr "title"
  let user ← pyIndex pr "user"
  let authorLogin ← pyIndex user "login"
  let state ← pyIndex pr "state"
  let htmlUrl ← pyIndex pr "html_url"
  let createdAt ← pyIndex pr "created_at"
  let updatedAt ← pyIndex pr "updated_at"
  let body ← pyGet pr "body" (.jStr "")
  let labelsV ← pyGet pr "labels" (.jArr [])
  let labelsList ← asArr labelsV
  let labelNames ← mapIndexKey "name" labelsList
  let assigneesV ← pyGet pr "assignees" (.jArr [])
  let assigneesList ← asArr assigneesV
  let assigneeLogins ← mapIndexKey "login" assigneesList
  let reviewersV ← pyGet pr "requested_reviewers" (.jArr [])
  let reviewersList ← asArr reviewersV
  let reviewerLogins ← mapIndexKey "login" reviewersList
  let comments ← pyGet pr "comments" (.jNum 0)
  let commits ← pyGet pr "commits" (.jNum 0)
  let additions ← pyGet pr "additions" (.jNum 0)
  let deletions ← pyGet pr "deletions" (.jNum 0)
  let changedFiles ← pyGet pr "changed_files" (.jNum 0)
  let avatar ← pyIndex user "avatar_url"
  let draft ← pyGet pr "draft" (.jBool false)
  let merged ← pyGet pr "merged" (.jBool false)
  let mergeable ← pyGet pr "mergeable" .jNull
  .ok (.jObj [
    ("id", .jStr idStr), ("title", title), ("author", authorLogin),
    ("status", state), ("repository", .jStr repo_name), ("url", htmlUrl),
    ("createdAt", createdAt), ("updatedAt", updatedAt),
    ("description", body), ("labels", .jArr labelNames),
    ("assignees", .jArr assigneeLogins), ("reviewers", .jArr reviewerLogins),
    ("comments", comments), ("commits", commits), ("additions", additions),
    ("deletions", deletions), ("changed_files", changedFiles),
    ("author_avatar", avatar), ("draft", draft), ("merged", merged),
    ("mergeable", mergeable)])

/-- Commit translation with a successful detail fetch, from
`get_repository_commits` (lines 265-280). -/
def translateCommitDetailed (repo_name : String) (commit commit_detail : JVal) :
    Except String JVal := do
  let sha ← pyIndex commit "sha"
  let shortId ← pyTake7 sha
  let inner ← pyIndex commit "commit"
  let message ← pyIndex inner "message"
  let authorObj ← pyIndex inner "author"
  let authorName ← pyIndex authorObj "name"
  let date ← pyIndex authorObj "date"
  let htmlUrl ← pyIndex commit "html_url"
  let filesV ← pyGet commit_detail "files" (.jArr [])
  let nFiles ← pyLen filesV
  let filesList ← asArr filesV
  let adds ← sumGetNum "additions" filesList
  let dels ← sumGetNum "deletions" filesList
  let avatarCond ← pyGet commit "author" .jNull
  let avatar ← commitAvatar avatarCond
  .ok (.jObj [
    ("id", shortId), ("message", message), ("author", authorName),
    ("date", date), ("repository", .jStr repo_name), ("url", htmlUrl),
    ("description", message), ("files_changed", .jNum nFiles),
    ("additions", .jNum adds), ("deletions", .jNum dels),
    ("commit_url", htmlUrl), ("author_avatar", avatar)])

/-- Commit translation when the detail fetch returned a non-success status,
from `get_repository_commits` (lines 281-296): the basic fields with the
extended counters zeroed. -/
def translateCommitBasic (repo_name : String) (commit : JVal) :
    Except String JVal := do
  let sha ← pyIndex commit "sha"
  let shortId ← pyTake7 sha
  let inner ← pyIndex commit "commit"
  let message ← pyIndex inner "message"
  let authorObj ← pyIndex inner "author"
  let authorName ← pyIndex authorObj "name"
  let date ← pyIndex authorObj "date"
  let htmlUrl ← pyIndex commit "html_url"
  let avatarCond ← pyGet commit "author" .jNull
  let avatar ← commitAvatar avatarCond
  .ok (.jObj [
    ("id", shortId), ("message", message), ("author", authorName),
    ("date", date), ("repository", .jStr repo_name), ("url", htmlUrl),
    ("description", message), ("files_changed", .jNum 0),
    ("additions", .jNum 0), ("deletions", .jNum 0),
    ("commit_url", htmlUrl), ("author_avatar", avatar)])

/-- Repository translation of `get_repository_data` (lines 238-246). -/
def translateRepo (repo : JVal) : Except String JVal := do
  let name ← pyIndex repo "name"
  let description ← pyGet repo "description" (.jStr "")
  let language ← pyGet repo "language" (.jStr "Unknown")
  let stars ← pyIndex repo "stargazers_count"
  let forks ← pyIndex repo "forks_count"
  let htmlUrl ← pyIndex repo "html_url"
  let updatedAt ← pyIndex repo "updated_at"
  .ok (.jObj [
    ("name", name), ("description", description), ("language", language),
    ("stars", stars), ("forks", forks), ("url", htmlUrl),
    ("lastUpdated", updatedAt)])

/-- User translation of `get_user_data` (lines 427-435). -/
def translateUser (user : JVal) : Except String JVal := do
  let login ← pyIndex user "login"
  let name ← pyGet user "name" .jNull
  let avatar ← pyGet user "avatar_url" .jNull
  let bio ← pyGet user "bio" .jNull
  let publicRepos ← pyGet user "public_repos" (.jNum 0)
  let followers ← pyGet user "followers" (.jNum 0)
  let following ← pyGet user "following" (.jNum 0)
  .ok (.jObj [
    ("username", login), ("name", name), ("avatar_url", avatar),
    ("bio", bio), ("public_repos", publicRepos), ("followers", followers),
    ("following", following)])

/-- Element translation of the repository-list comprehension in
`get_user_repositories` (lines 452-464). -/
def translateUserRepo (repo : JVal) : Except String JVal := do
  let rid ← pyIndex repo "id"
  let name ← pyIndex repo "name"
  let fullName ← pyIndex repo "full_name"
  let description ← pyGet repo "description" (.jStr "")
  let language ← pyGet repo "language" (.jStr "Unknown")
  let stars ← pyIndex repo "stargazers_count"
  let forks ← pyIndex repo "forks_count"
  let updatedAt ← pyIndex repo "updated_at"
  let htmlUrl ← pyIndex repo "html_url"
  let priv ← pyIndex repo "private"
  let fk ← pyIndex repo "fork"
  .ok (.jObj [
    ("id", rid), ("name", name), ("full_name", fullName),
    ("description", description), ("language", language),
    ("stargazers_count", stars), ("forks_count", forks),
    ("updated_at", updatedAt), ("html_url", htmlUrl),
    ("private", priv), ("fork", fk)])

/-- Filter condition of `get_user_repositories` (line 466):
`repo["owner"]["login"] == username`. -/
def ownerLoginEq (username : String) (repo : JVal) : Except String Bool := do
  let owner ← pyIndex repo "owner"
  let login ← pyIndex owner "login"
  .ok (jbeq login (.jStr username))

/-- `get_organization_data` (lines 218-227): the raw body on success, a
name/description placeholder otherwise. -/
def get_organization_data (organization : String)
    (fetch : Except String HttpResp) : Except String JVal := do
  let response ← fetch
  if response.status = 200 then .ok response.body
  else
    .ok (.jObj [("name", .jStr organization),
      ("description", .jStr (organization ++ " Organization"))])

/-- `get_repository_data` (lines 229-247): the translated repository on
success, the "Repository not found" placeholder otherwise. -/
def get_repository_data (repo_name : String)
    (fetch : Except String HttpResp) : Except String JVal := do
  let response ← fetch
  if response.status = 200 then translateRepo response.body
  else
    .ok (.jObj [("name", .jStr repo_name),
      ("description", .jStr "Repository not found")])

/-- Branch selection of the per-commit loop (lines 265-296): the detailed
translation when the detail fetch returned status 200, the zeroed basic
translation otherwise. -/
def commitItem (repo_name : String) (c : JVal) (dresp : HttpResp) :
    Except String JVal :=
  if dresp.status = 200 then translateCommitDetailed repo_name c dresp.body
  else translateCommitBasic repo_name c

/-- Per-commit loop of `get_repository_commits` (lines 260-296): each
iteration fetches the commit detail (by the string form of the commit sha)
and appends exactly one summary, detailed or basic according to the detail
status. -/
def commitsLoop (repo_name : String)
    (detailFetch : String → Except String HttpResp) :
    List JVal → Except String (List JVal)
  | [] => .ok []
  | c :: cs => do
    let shaV ← pyIndex c "sha"
    let shaStr ← pyToStr shaV
    let dresp ← detailFetch shaStr
    let item ← commitItem repo_name c dresp
    let rest ← commitsLoop repo_name detailFetch cs
    .ok (item :: rest)

/-- `get_repository_commits` (lines 249-299). -/
def get_repository_commits (repo_name : String)
    (fetch : Except String HttpResp)
    (detailFetch : String → Except String HttpResp) :
    Except String (List JVal) := do
  let response ← fetch
  if response.status = 200 then do
    let commits ← asArr response.body
    commitsLoop repo_name detailFetch (commits.take 10)
  else .ok []

/-- `get_repository_pull_requests` (lines 301-338). -/
def get_repository_pull_requests (repo_name : String)
    (fetch : Except String HttpResp) : Except String (List JVal) := do
  let response ← fetch
  if response.status = 200 then do
    let prs ← asArr response.body
    mapE (translatePullRequest repo_name) (prs.take 10)
  else .ok []

/-- Per-issue loop of `get_repository_issues` (lines 351-388): the first ten
issues are scanned, entries carrying a "pull_request" key are skipped, the
rest are translated and appended. -/
def issuesLoop (repo_name : String) : List JVal → Except String (List JVal)
  | [] => .ok []
  | i :: rest => do
    let marked ← pyContains i "pull_request"
    if marked then issuesLoop repo_name rest
    else do
      let t ← translateIssue repo_name i
      let ts ← issuesLoop repo_name rest
      .ok (t :: ts)

/-- `get_repository_issues` (lines 340-391). -/
def get_repository_issues (repo_name : String)
    (fetch : Except String HttpResp) : Except String (List JVal) := do
  let response ← fetch
  if response.status = 200 then do
    let issues ← asArr response.body
    issuesLoop repo_name (issues.take 10)
  else .ok []

/-- `get_user_data` (lines 418-436). -/
def get_user_data (username : String)
    (fetch : Except String HttpResp) : Except String JVal := do
  let response ← fetch
  if response.status = 200 then translateUser response.body
  else .ok (.jObj [("username", .jStr username), ("name", .jStr username)])

/-- Filter-and-translate comprehension of `get_user_repositories`
(lines 451-467): per element the owner test runs first and the translation
only for elements that pass. -/
def userReposLoop (username : String) : List JVal → Except String (List JVal)
  | [] => .ok []
  | r :: rs => do
    let keep ← ownerLoginEq username r
    if keep then do
      let t ← translateUserRepo r
      let ts ← userReposLoop username rs
      .ok (t :: ts)
    else userReposLoop username rs

/-- `get_user_repositories` (lines 438-470). -/
def get_user_repositories (username : String)
    (fetch : Except String HttpResp) : Except String (List JVal) := do
  let response ← fetch
  if response.status = 200 then do
    let all_repos ← asArr response.body
    userReposLoop username all_repos
  else .ok []

/-- Network abstraction: one response slot per logical upstream call an
endpoint can make during one request. -/
structure Oracle where
  orgFetch : Except String HttpResp
  repoFetch : Except String HttpResp
  commitsFetch : Except String HttpResp
  commitDetailFetch : String → Except String HttpResp
  prsFetch : Except String HttpResp
  issuesFetch : Except String HttpResp
  userFetch : Except String HttpResp
  userReposFetch : Except String HttpResp

/-- Catch-all error envelope wrapping every handler try-block: the value on
success, the error body on a raised exception. -/
def envelope : Except String JVal -> JVal
  | .ok v => v
  | .error e => .jObj [("error", .jStr e)]

/-- Try-block of `GET /api/github-data` (`get_github_data`, lines 185-214):
aggregation of organization/repository/commits/PRs/issues plus stats. -/
def get_github_data_core (o : Oracle) (org repo : String) :
    Except String JVal := do
  let org_data ← get_organization_data org o.orgFetch
  let repo_data ← get_repository_data repo o.repoFetch
  let commits_data ← get_repository_commits repo o.commitsFetch o.commitDetailFetch
  let prs_data ← get_repository_pull_requests repo o.prsFetch
  let issues_data ← get_repository_issues repo o.issuesFetch
  let authors ← mapIndexKey "author" commits_data
  let active ← pySetSize authors
  Except.ok (.jObj [
    ("organization", org_data), ("repository", repo_data),
    ("commits", .jArr commits_data), ("pullRequests", .jArr prs_data),
    ("issues", .jArr issues_data),
    ("stats", .jObj [
      ("totalCommits", .jNum commits_data.length),
      ("totalPRs", .jNum prs_data.length),
      ("totalIssues", .jNum issues_data.length),
      ("activeContributors", .jNum active),
      ("repositoriesCount", .jNum 1)])])

/-- Handler `GET /api/github-data` (`get_github_data`, lines 179-216):
token guard, try-block, error envelope. -/
def get_github_data (token : Option String) (o : Oracle)
    (org repo : String) : JVal :=
  if tokenMissing token then tokenErrorBody
  else envelope (get_github_data_core o org repo)

/-- Try-block of `GET /api/github/user` (lines 404-414). -/
def get_github_user_core (o : Oracle) (username : String) :
    Except String JVal := do
  let user_data ← get_user_data username o.userFetch
  let repositories_data ← get_user_repositories username o.userReposFetch
  Except.ok (.jObj [
    ("user", user_data),
    ("repositories", .jArr repositories_data)])

/-- Handler `GET /api/github/user` (`get_github_user`, lines 398-416). -/
def get_github_user (token : Option String) (o : Oracle)
    (username : String) : JVal :=
  if tokenMissing token then tokenErrorBody
  else envelope (get_github_user_core o username)

/-- Try-block of `GET /api/github/user/.../repositories` (lines 478-497),
including the derived rollups. -/
def get_user_repositories_detailed_core (o : Oracle) (username : String) :
    Except String JVal := do
  let user_data ← get_user_data username o.userFetch
  let repositories_data ← get_user_repositories username o.userReposFetch
  let privates ← filterField "private" true repositories_data
  let publics ← filterField "private" false repositories_data
  let langsAll ← mapIndexKey "language" repositories_data
  let langs ← pySetList (langsAll.filter fun l => !jbeq l (.jStr "Unknown"))
  let stars ← mapIndexKey "stargazers_count" repositories_data
  let starsN ← stars.foldlM (fun acc v => do
    let n ← asNum v
    Except.ok (acc + n)) (0 : Int)
  let forks ← mapIndexKey "forks_count" repositories_data
  let forksN ← forks.foldlM (fun acc v => do
    let n ← asNum v
    Except.ok (acc + n)) (0 : Int)
  Except.ok (.jObj [
    ("user", user_data), ("repositories", .jArr repositories_data),
    ("total_repos", .jNum repositories_data.length),
    ("private_repos", .jNum privates.length),
    ("public_repos", .jNum publics.length),
    ("languages", .jArr langs),
    ("total_stars", .jNum starsN),
    ("total_forks", .jNum forksN)])

/-- Handler `GET /api/github/user/.../repositories`
(`get_user_repositories_detailed`, lines 472-499). -/
def get_user_repositories_detailed (token : Option String) (o : Oracle)
    (username : String) : JVal :=
  if tokenMissing token then tokenErrorBody
  else envelope (get_user_repositories_detailed_core o username)

/-- Try-block of `GET /api/github/user/.../repository/...` (lines 507-531);
the stats omit `repositoriesCount`. -/
def get_user_repository_detailed_core (o : Oracle) (repo_name : String) :
    Except String JVal := do
  let repo_data ← get_repository_data repo_name o.repoFetch
  let commits_data ← get_repository_commits repo_name o.commitsFetch o.commitDetailFetch
  let prs_data ← get_repository_pull_requests repo_name o.prsFetch
  let issues_data ← get_repository_issues repo_name o.issuesFetch
  let authors ← mapIndexKey "author" commits_data
  let active ← pySetSize authors
  Except.ok (.jObj [
    ("repository", repo_data), ("commits", .jArr commits_data),
    ("pullRequests", .jArr prs_data), ("issues", .jArr issues_data),
    ("stats", .jObj [
      ("totalCommits", .jNum commits_data.length),
      ("totalPRs", .jNum prs_data.length),
      ("totalIssues", .jNum issues_data.length),
      ("activeContributors", .jNum active)])])

/-- Handler `GET /api/github/user/.../repository/...`
(`get_user_repository_detailed`, lines 501-533); the username parameter only
selects upstream URLs, which the oracle abstracts. -/
def get_user_repository_detailed (token : Option String) (o : Oracle)
    (username repo_name : String) : JVal :=
  if tokenMissing token then tokenErrorBody
  else envelope (get_user_repository_detailed_core o repo_name)

set_option linter.unusedVariables false

/-- Bind of a success in `Except String`. -/
@[simp] theorem ok_bind {α β : Type} (a : α) (f : α → Except String β) :
    (Except.ok a >>= f) = f a := rfl

/-- Bind of a failure in `Except String`. -/
@[simp] theorem error_bind {α β : Type} (e : String) (f : α → Except String β) :
    ((Except.error e : Except String α) >>= f) = Except.error e := rfl

/-- Pure is success in `Except String`. -/
@[simp] theorem pure_eq_ok {α : Type} (a : α) : (pure a : Except String α) = .ok a := rfl

/-- Inversion of a successful bind. -/
theorem bind_eq_ok {α β : Type} {x : Except String α} {f : α → Except String β} {b : β} :
    (x >>= f) = .ok b ↔ ∃ a, x = .ok a ∧ f a = .ok b := by
  cases x <;> simp

/-- Lookup on the empty field list. -/
@[simp] theorem lookupField_nil (key : String) : lookupField [] key = none := rfl

/-- Lookup steps through one field. -/
@[simp] theorem lookupField_cons (k : String) (v : JVal)
    (rest : List (String × JVal)) (key : String) :
    lookupField ((k, v) :: rest) key = if k = key then some v else lookupField rest key := rfl

/-- Serialization of one optional upstream field: present fields contribute
one entry, absent fields none. -/
def optField (k : String) : Option JVal → List (String × JVal)
  | some v => [(k, v)]
  | none => []

/-- Lookup skips an optional field with a different key. -/
@[simp] theorem lookupField_optField_ne (k : String) (v : Option JVal)
    (rest : List (String × JVal)) (key : String) (h : ¬k = key) :
    lookupField (optField k v ++ rest) key = lookupField rest key := by
  cases v <;> simp [optField, h]

/-- Lookup of the own key of an optional field yields exactly the optional value
when no later field shares the key. -/
@[simp] theorem lookupField_optField_self (key : String) (v : Option JVal)
    (rest : List (String × JVal)) (h : lookupField rest key = none) :
    lookupField (optField key v ++ rest) key = v := by
  cases v <;> simp [optField, h]

/-- Lookup in a trailing optional field with a different key. -/
@[simp] theorem lookupField_optField_ne_last (k : String) (v : Option JVal)
    (key : String) (h : ¬k = key) : lookupField (optField k v) key = none := by
  cases v <;> simp [optField, h]

/-- Lookup of the own key of a trailing optional field. -/
@[simp] theorem lookupField_optField_self_last (key : String) (v : Option JVal) :
    lookupField (optField key v) key = v := by
  cases v <;> simp [optField]

/-- Upstream repository object shape for the repository translator: required
fields carry arbitrary JSON values, optional fields may be absent. -/
structure UpRepo where
  name : JVal
  stargazers_count : JVal
  forks_count : JVal
  html_url : JVal
  updated_at : JVal
  description : Option JVal
  language : Option JVal

/-- Serialization of `UpRepo` into the upstream JSON object. -/
def UpRepo.toJson (r : UpRepo) : JVal :=
  .jObj ([("name", r.name), ("stargazers_count", r.stargazers_count),
    ("forks_count", r.forks_count), ("html_url", r.html_url),
    ("updated_at", r.updated_at)]
    ++ optField "description" r.description
    ++ optField "language" r.language)

/-- Modelled from the spec: the repository summary with the documented
defaults (empty string for a missing description, "Unknown" for a missing
language) substituted. -/
def specRepoSummary (r : UpRepo) : JVal :=
  .jObj [("name", r.name),
    ("description", r.description.getD (.jStr "")),
    ("language", r.language.getD (.jStr "Unknown")),
    ("stars", r.stargazers_count), ("forks", r.forks_count),
    ("url", r.html_url), ("lastUpdated", r.updated_at)]

/-- The repository translator is total on repository objects with any subset
of optional fields missing, and substitutes the documented defaults. -/
theorem translateRepo_total (r : UpRepo) :
    translateRepo r.toJson = .ok (specRepoSummary r) := by
  simp [translateRepo, UpRepo.toJson, specRepoSummary, pyIndex, pyGet]

/-- Upstream user object shape for the user translator. -/
structure UpUser where
  login : JVal
  name : Option JVal
  avatar_url : Option JVal
  bio : Option JVal
  public_repos : Option JVal
  followers : Option JVal
  following : Option JVal

/-- Serialization of `UpUser` into the upstream JSON object. -/
def UpUser.toJson (u : UpUser) : JVal :=
  .jObj ([("login", u.login)]
    ++ optField "name" u.name
    ++ optField "avatar_url" u.avatar_url
    ++ optField "bio" u.bio
    ++ optField "public_repos" u.public_repos
    ++ optField "followers" u.followers
    ++ optField "following" u.following)

/-- Modelled from the spec: the user summary with the documented defaults
(null for missing name/avatar/bio, 0 for missing counts). -/
def specUserSummary (u : UpUser) : JVal :=
  .jObj [("username", u.login),
    ("name", u.name.getD .jNull),
    ("avatar_url", u.avatar_url.getD .jNull),
    ("bio", u.bio.getD .jNull),
    ("public_repos", u.public_repos.getD (.jNum 0)),
    ("followers", u.followers.getD (.jNum 0)),
    ("following", u.following.getD (.jNum 0))]

/-- The user translator is total on user objects with any subset of optional
fields missing, and substitutes the documented defaults. -/
theorem translateUser_total (u : UpUser) :
    translateUser u.toJson = .ok (specUserSummary u) := by
  simp [translateUser, UpUser.toJson, specUserSummary, pyIndex, pyGet]

/-- Upstream commit object shape for the commit translator: the sha is a hash
string, the nested `commit.author` block carries name and date, and the
top-level `author` block (the avatar source) may be absent. -/
structure UpCommit where
  sha : String
  message : JVal
  authorName : JVal
  authorDate : JVal
  html_url : JVal
  authorAvatar : Option JVal

/-- Serialization of `UpCommit` into the upstream JSON object; a present
`author` block is the object carrying the avatar URL. -/
def UpCommit.toJson (c : UpCommit) : JVal :=
  .jObj ([("sha", .jStr c.sha),
    ("commit", .jObj [("message", c.message),
      ("author", .jObj [("name", c.authorName), ("date", c.authorDate)])]),
    ("html_url", c.html_url)]
    ++ optField "author" (c.authorAvatar.map fun a => .jObj [("avatar_url", a)]))

/-- Modelled from the spec: the basic commit summary (no detail fetch), with
zeroed extended counters and a null avatar when the author block is absent. -/
def specCommitBasic (repo : String) (c : UpCommit) : JVal :=
  .jObj [("id", .jStr (c.sha.take 7)), ("message", c.message),
    ("author", c.authorName), ("date", c.authorDate),
    ("repository", .jStr repo), ("url", c.html_url),
    ("description", c.message), ("files_changed", .jNum 0),
    ("additions", .jNum 0), ("deletions", .jNum 0),
    ("commit_url", c.html_url), ("author_avatar", c.authorAvatar.getD .jNull)]

/-- The basic commit translator is total on commit objects with the author
block possibly absent, and zeroes the extended counters. -/
theorem translateCommitBasic_total (repo : String) (c : UpCommit) :
    translateCommitBasic repo c.toJson = .ok (specCommitBasic repo c) := by
  obtain ⟨sha, msg, an, ad, url, av⟩ := c
  cases av <;>
    simp [translateCommitBasic, UpCommit.toJson, specCommitBasic, pyIndex,
      pyGet, pyTake7, pyTruthy, optField, commitAvatar]

/-- Upstream per-file entry of a commit detail: additions/deletions counts,
each possibly absent. -/
structure UpFile where
  additions : Option Int
  deletions : Option Int

/-- Serialization of `UpFile` into the upstream JSON object. -/
def UpFile.toJson (f : UpFile) : JVal :=
  .jObj (optField "additions" (f.additions.map JVal.jNum)
    ++ optField "deletions" (f.deletions.map JVal.jNum))

/-- Upstream commit-detail object: the file list may be absent. -/
structure UpCommitDetail where
  files : Option (List UpFile)

/-- Serialization of `UpCommitDetail` into the upstream JSON object. -/
def UpCommitDetail.toJson (d : UpCommitDetail) : JVal :=
  .jObj (optField "files" (d.files.map fun fs => .jArr (fs.map UpFile.toJson)))

/-- Documented additions rollup: the sum over the detail files of their
additions counts, a missing count contributing 0. -/
def addSum (fs : List UpFile) : Int := (fs.map fun f => f.additions.getD 0).sum

/-- Documented deletions rollup. -/
def delSum (fs : List UpFile) : Int := (fs.map fun f => f.deletions.getD 0).sum

/-- Summing the additions over serialized detail files. -/
theorem sumGetNum_additions (fs : List UpFile) :
    sumGetNum "additions" (fs.map UpFile.toJson) = .ok (addSum fs) := by
  induction fs with
  | nil => rfl
  | cons f fs ih =>
    obtain ⟨a, d⟩ := f
    cases a <;> cases d <;>
      simp [sumGetNum, UpFile.toJson, pyGet, asNum, addSum, ih, optField]

/-- Summing the deletions over serialized detail files. -/
theorem sumGetNum_deletions (fs : List UpFile) :
    sumGetNum "deletions" (fs.map UpFile.toJson) = .ok (delSum fs) := by
  induction fs with
  | nil => rfl
  | cons f fs ih =>
    obtain ⟨a, d⟩ := f
    cases a <;> cases d <;>
      simp [sumGetNum, UpFile.toJson, pyGet, asNum, delSum, ih, optField]

/-- Modelled from the spec: the detailed commit summary, whose extended
counters are the file count and the summed additions/deletions of the detail
object, all zero when the file list of the detail is absent. -/
def specCommitDetailed (repo : String) (c : UpCommit) (d : UpCommitDetail) : JVal :=
  .jObj [("id", .jStr (c.sha.take 7)), ("message", c.message),
    ("author", c.authorName), ("date", c.authorDate),
    ("repository", .jStr repo), ("url", c.html_url),
    ("description", c.message),
    ("files_changed", .jNum ((d.files.getD []).length : Int)),
    ("additions", .jNum (addSum (d.files.getD []))),
    ("deletions", .jNum (delSum (d.files.getD []))),
    ("commit_url", c.html_url), ("author_avatar", c.authorAvatar.getD .jNull)]

/-- The detailed commit translator is total on commit and detail objects with
any subset of optional fields missing, and computes the extended counters
from the file list of the detail (0 when absent). -/
theorem translateCommitDetailed_total (repo : String) (c : UpCommit)
    (d : UpCommitDetail) :
    translateCommitDetailed repo c.toJson d.toJson = .ok (specCommitDetailed repo c d) := by
  obtain ⟨sha, msg, an, ad, url, av⟩ := c
  obtain ⟨files⟩ := d
  cases av <;> cases files <;>
    simp [translateCommitDetailed, UpCommit.toJson, UpCommitDetail.toJson,
      specCommitDetailed, pyIndex, pyGet, pyTake7, pyTruthy, pyLen, asArr,
      optField, sumGetNum_additions, sumGetNum_deletions, addSum, delSum,
      sumGetNum, commitAvatar]

/-- Upstream array of objects each carrying one key of interest (labels with
names, assignees/reviewers with logins). -/
def mkKeyed (key : String) (vs : List JVal) : JVal :=
  .jArr (vs.map fun v => .jObj [(key, v)])

/-- Extracting the carried key from a keyed list recovers the values. -/
theorem mapIndexKey_keyed (key : String) (vs : List JVal) :
    mapIndexKey key (vs.map fun v => .jObj [(key, v)]) = .ok vs := by
  induction vs with
  | nil => rfl
  | cons v vs ih => simp [mapIndexKey, pyIndex, ih]

/-- Upstream pull-request object shape for the pull-request translator. -/
structure UpPR where
  number : Int
  title : JVal
  userLogin : JVal
  userAvatar : JVal
  state : JVal
  html_url : JVal
  created_at : JVal
  updated_at : JVal
  body : Option JVal
  labels : Option (List JVal)
  assignees : Option (List JVal)
  requested_reviewers : Option (List JVal)
  comments : Option JVal
  commits : Option JVal
  additions : Option JVal
  deletions : Option JVal
  changed_files : Option JVal
  draft : Option JVal
  merged : Option JVal
  mergeable : Option JVal

/-- Serialization of `UpPR` into the upstream JSON object: labels are objects
carrying names, assignees and requested reviewers are objects carrying
logins. -/
def UpPR.toJson (p : UpPR) : JVal :=
  .jObj ([("number", .jNum p.number), ("title", p.title),
    ("user", .jObj [("login", p.userLogin), ("avatar_url", p.userAvatar)]),
    ("state", p.state), ("html_url", p.html_url),
    ("created_at", p.created_at), ("updated_at", p.updated_at)]
    ++ optField "body" p.body
    ++ optField "labels" (p.labels.map (mkKeyed "name"))
    ++ optField "assignees" (p.assignees.map (mkKeyed "login"))
    ++ optField "requested_reviewers" (p.requested_reviewers.map (mkKeyed "login"))
    ++ optField "comments" p.comments
    ++ optField "commits" p.commits
    ++ optField "additions" p.additions
    ++ optField "deletions" p.deletions
    ++ optField "changed_files" p.changed_files
    ++ optField "draft" p.draft
    ++ optField "merged" p.merged
    ++ optField "mergeable" p.mergeable)

/-- Modelled from the spec: the pull-request summary with the documented
defaults (empty string body, empty label/assignee/reviewer lists, zero
counts, false draft/merged, null mergeable). -/
def specPRSummary (repo : String) (p : UpPR) : JVal :=
  .jObj [("id", .jStr (toString p.number)), ("title", p.title),
    ("author", p.userLogin), ("status", p.state),
    ("repository", .jStr repo), ("url", p.html_url),
    ("createdAt", p.created_at), ("updatedAt", p.updated_at),
    ("description", p.body.getD (.jStr "")),
    ("labels", .jArr (p.labels.getD [])),
    ("assignees", .jArr (p.assignees.getD [])),
    ("reviewers", .jArr (p.requested_reviewers.getD [])),
    ("comments", p.comments.getD (.jNum 0)),
    ("commits", p.commits.getD (.jNum 0)),
    ("additions", p.additions.getD (.jNum 0)),
    ("deletions", p.deletions.getD (.jNum 0)),
    ("changed_files", p.changed_files.getD (.jNum 0)),
    ("author_avatar", p.userAvatar),
    ("draft", p.draft.getD (.jBool false)),
    ("merged", p.merged.getD (.jBool false)),
    ("mergeable", p.mergeable.getD .jNull)]

/-- The pull-request translator is total on pull-request objects with any
subset of optional fields missing, and substitutes the documented defaults. -/
theorem translatePullRequest_total (repo : String) (p : UpPR) :
    translatePullRequest repo p.toJson = .ok (specPRSummary repo p) := by
  obtain ⟨n, t, ul, ua, st, url, ca, ua2, body, labels, asg, rev, c1, c2, c3, c4, c5, d1, d2, d3⟩ := p
  cases labels <;> cases asg <;> cases rev <;>
    simp [translatePullRequest, UpPR.toJson, specPRSummary, pyIndex, pyGet,
      pyToStr, asArr, mkKeyed, mapIndexKey_keyed, mapIndexKey]

/-- Label-name scan over a serialized label list: the generator reduces to a
boolean scan of the lowered names. -/
theorem anyLabelHas_names (sub : String) (ns : List String) :
    anyLabelHas sub (ns.map fun n => JVal.jObj [("name", .jStr n)]) =
      .ok (ns.any fun n => strHas (strLower n) sub) := by
  induction ns with
  | nil => rfl
  | cons n ns ih =>
    by_cases h : strHas (strLower n) sub <;> simp [anyLabelHas, pyIndex, h, ih]

/-- Priority derivation at the level of label names: the first matching rule
of high/low/medium wins. -/
def priorityFromNames (names : List String) : String :=
  if names.any fun n => strHas (strLower n) "high" then "high"
  else if names.any fun n => strHas (strLower n) "low" then "low"
  else "medium"

/-- The source priority computation agrees with `priorityFromNames` on any
serialized label list. -/
theorem issuePriority_names (ns : List String) :
    issuePriority (ns.map fun n => JVal.jObj [("name", .jStr n)]) =
      .ok (priorityFromNames ns) := by
  by_cases h1 : ns.any fun n => strHas (strLower n) "high" <;>
    by_cases h2 : ns.any fun n => strHas (strLower n) "low" <;>
      simp [issuePriority, anyLabelHas_names, priorityFromNames, h1, h2]

/-- Extracting the names of a serialized label list. -/
theorem mapIndexKey_names (ns : List String) :
    mapIndexKey "name" (ns.map fun n => JVal.jObj [("name", .jStr n)]) =
      .ok (ns.map JVal.jStr) := by
  induction ns with
  | nil => rfl
  | cons n ns ih => simp [mapIndexKey, pyIndex, ih]

/-- Upstream reactions block of an issue: every count may be absent. -/
structure UpReactions where
  total_count : Option JVal
  plusOne : Option JVal
  minusOne : Option JVal
  laugh : Option JVal
  hooray : Option JVal
  confused : Option JVal
  heart : Option JVal

/-- Serialization of `UpReactions` into the upstream JSON object. -/
def UpReactions.toJson (r : UpReactions) : JVal :=
  .jObj (optField "total_count" r.total_count
    ++ optField "+1" r.plusOne
    ++ optField "-1" r.minusOne
    ++ optField "laugh" r.laugh
    ++ optField "hooray" r.hooray
    ++ optField "confused" r.confused
    ++ optField "heart" r.heart)

/-- The fully-absent reactions block. -/
def UpReactions.empty : UpReactions := ⟨none, none, none, none, none, none, none⟩

/-- Upstream issue object shape for the issue translator (an issue, not a
pull request: no `pull_request` key). Label names are strings, as the
priority derivation lowercases them. -/
structure UpIssue where
  number : Int
  title : JVal
  userLogin : JVal
  userAvatar : JVal
  state : JVal
  html_url : JVal
  created_at : JVal
  updated_at : JVal
  body : Option JVal
  labels : Option (List String)
  assignees : Option (List JVal)
  comments : Option JVal
  milestoneTitle : Option JVal
  locked : Option JVal
  closed_at : Option JVal
  reactions : Option UpReactions

/-- Serialization of `UpIssue` into the upstream JSON object; a present
milestone is the object carrying its title. -/
def UpIssue.toJson (i : UpIssue) : JVal :=
  .jObj ([("number", .jNum i.number), ("title", i.title),
    ("user", .jObj [("login", i.userLogin), ("avatar_url", i.userAvatar)]),
    ("state", i.state), ("html_url", i.html_url),
    ("created_at", i.created_at), ("updated_at", i.updated_at)]
    ++ optField "body" i.body
    ++ optField "labels"
      (i.labels.map fun ns => .jArr (ns.map fun n => .jObj [("name", .jStr n)]))
    ++ optField "assignees" (i.assignees.map (mkKeyed "login"))
    ++ optField "comments" i.comments
    ++ optField "milestone" (i.milestoneTitle.map fun t => .jObj [("title", t)])
    ++ optField "locked" i.locked
    ++ optField "closed_at" i.closed_at
    ++ optField "reactions" (i.reactions.map UpReactions.toJson))

/-- Modelled from the spec: the issue summary with the documented defaults
(empty body/labels/assignees, zero counts, medium priority fallback, null
milestone/closed timestamp, unlocked). -/
def specIssueSummary (repo : String) (i : UpIssue) : JVal :=
  .jObj [("id", .jStr (toString i.number)), ("title", i.title),
    ("author", i.userLogin), ("status", i.state),
    ("priority", .jStr (priorityFromNames (i.labels.getD []))),
    ("repository", .jStr repo), ("url", i.html_url),
    ("createdAt", i.created_at), ("updatedAt", i.updated_at),
    ("description", i.body.getD (.jStr "")),
    ("labels", .jArr ((i.labels.getD []).map JVal.jStr)),
    ("assignees", .jArr (i.assignees.getD [])),
    ("comments", i.comments.getD (.jNum 0)),
    ("author_avatar", i.userAvatar),
    ("milestone", i.milestoneTitle.getD .jNull),
    ("locked", i.locked.getD (.jBool false)),
    ("closed_at", i.closed_at.getD .jNull),
    ("reactions", .jObj [
      ("total_count", ((i.reactions.getD UpReactions.empty).total_count).getD (.jNum 0)),
      ("thumbs_up", ((i.reactions.getD UpReactions.empty).plusOne).getD (.jNum 0)),
      ("thumbs_down", ((i.reactions.getD UpReactions.empty).minusOne).getD (.jNum 0)),
      ("laugh", ((i.reactions.getD UpReactions.empty).laugh).getD (.jNum 0)),
      ("hooray", ((i.reactions.getD UpReactions.empty).hooray).getD (.jNum 0)),
      ("confused", ((i.reactions.getD UpReactions.empty).confused).getD (.jNum 0)),
      ("heart", ((i.reactions.getD UpReactions.empty).heart).getD (.jNum 0))])]

/-- Priority of an empty label list. -/
theorem issuePriority_nil : issuePriority [] = .ok "medium" := rfl

/-- Name-level priority of an empty label list. -/
theorem priorityFromNames_nil : priorityFromNames [] = "medium" := rfl

set_option maxHeartbeats 3200000 in
/-- The issue translator is total on issue objects with any subset of
optional fields missing, and substitutes the documented defaults. -/
theorem translateIssue_total (repo : String) (i : UpIssue) :
    translateIssue repo i.toJson = .ok (specIssueSummary repo i) := by
  obtain ⟨n, t, ul, ua, st, url, ca, ua2, body, labels, asg, cm, ms, lk, cl, re⟩ := i
  cases labels <;> cases asg <;> cases ms <;> cases re <;>
    simp [translateIssue, UpIssue.toJson, specIssueSummary, pyIndex, pyGet,
      pyToStr, pyTruthy, asArr, mkKeyed, mapIndexKey_keyed, mapIndexKey,
      mapIndexKey_names, issuePriority_names, issuePriority_nil,
      priorityFromNames_nil, UpReactions.toJson, UpReactions.empty,
      milestoneOf]

/-- Lookup on an arbitrary JSON value: field lookup on objects, `none`
elsewhere. -/
def objLookup : JVal → String → Option JVal
  | .jObj fs, key => lookupField fs key
  | _, _ => none

/-- The pull-request marker test on an issue entry: whether `key in issue`
holds for the "pull_request" key (false on receivers where the Python test
would raise; such entries make the whole request fail instead of being
kept). -/
def hasPRMark (j : JVal) : Bool := (containsKeyB j "pull_request").getD false

/-- Ownership test of `get_user_repositories` as a total boolean (false on
entries where the Python test would raise; such entries make the whole
request fail instead of being kept). -/
def ownedByB (username : String) (r : JVal) : Bool :=
  match ownerLoginEq username r with
  | .ok b => b
  | .error _ => false

/-- Inversion of the array requirement. -/
theorem asArr_ok {v : JVal} {l : List JVal} : asArr v = .ok l ↔ v = .jArr l := by
  cases v <;> simp [asArr]

/-- A successful element-wise translation preserves the length. -/
theorem mapE_ok_length {f : JVal → Except String JVal} :
    ∀ {xs ys : List JVal}, mapE f xs = .ok ys → ys.length = xs.length := by
  intro xs
  induction xs with
  | nil => intro ys h; simp [mapE] at h; simp [h.symm]
  | cons x xs ih =>
    intro ys h
    simp only [mapE, bind_eq_ok] at h
    obtain ⟨y, hy, ys2, hys, hcons⟩ := h
    simp only [Except.ok.injEq] at hcons
    simp [hcons.symm, ih hys]

/-- Every element of a successful element-wise translation arises from a
source element. -/
theorem mapE_ok_mem {f : JVal → Except String JVal} :
    ∀ {xs ys : List JVal}, mapE f xs = .ok ys → ∀ y ∈ ys, ∃ x ∈ xs, f x = .ok y := by
  intro xs
  induction xs with
  | nil => intro ys h; simp [mapE] at h; simp [h]
  | cons x xs ih =>
    intro ys h
    simp only [mapE, bind_eq_ok] at h
    obtain ⟨y, hy, ys2, hys, hcons⟩ := h
    simp only [Except.ok.injEq] at hcons
    subst hcons
    intro z hz
    rcases List.mem_cons.mp hz with hz | hz
    · exact ⟨x, List.mem_cons_self x xs, hz ▸ hy⟩
    · obtain ⟨w, hw, hfw⟩ := ih hys z hz
      exact ⟨w, List.mem_cons_of_mem x hw, hfw⟩

/-- A successful issues loop behaves as translate-after-filter: the output is
the element-wise translation of exactly the entries not carrying the
pull-request marker. -/
theorem issuesLoop_ok {repo : String} :
    ∀ {xs out : List JVal}, issuesLoop repo xs = .ok out →
      mapE (translateIssue repo) (xs.filter fun i => !hasPRMark i) = .ok out := by
  intro xs
  induction xs with
  | nil => intro out h; simpa [issuesLoop, mapE] using h
  | cons i rest ih =>
    intro out h
    unfold issuesLoop at h
    rcases bind_eq_ok.mp h with ⟨marked, hm, h⟩
    have hck : containsKeyB i "pull_request" = some marked := by
      unfold pyContains at hm
      cases hc : containsKeyB i "pull_request" <;> simp [hc] at hm <;> simp [hm]
    have hmark : hasPRMark i = marked := by simp [hasPRMark, hck]
    cases marked with
    | true =>
      rw [if_pos rfl] at h
      simp only [List.filter_cons, hmark]
      simpa using ih h
    | false =>
      rw [if_neg (by simp)] at h
      rcases bind_eq_ok.mp h with ⟨t, ht, h⟩
      rcases bind_eq_ok.mp h with ⟨ts, hts, h⟩
      cases h
      simp only [List.filter_cons, hmark, Bool.not_false, if_pos, mapE,
        bind_eq_ok]
      exact ⟨t, ht, ts, ih hts, rfl⟩

/-- A successful commits loop yields one summary per input commit. -/
theorem commitsLoop_ok_length {repo : String}
    {df : String → Except String HttpResp} :
    ∀ {xs out : List JVal}, commitsLoop repo df xs = .ok out →
      out.length = xs.length := by
  intro xs
  induction xs with
  | nil => intro out h; simp [commitsLoop] at h; simp [h]
  | cons c cs ih =>
    intro out h
    unfold commitsLoop at h
    rcases bind_eq_ok.mp h with ⟨shaV, h1, h⟩
    rcases bind_eq_ok.mp h with ⟨shaStr, h2, h⟩
    rcases bind_eq_ok.mp h with ⟨dresp, h3, h⟩
    rcases bind_eq_ok.mp h with ⟨item, h4, h⟩
    rcases bind_eq_ok.mp h with ⟨rest, h5, h⟩
    cases h
    simp [ih h5]

/-- Every summary of a successful commits loop is the `commitItem` of a
source commit at its own detail response. -/
theorem commitsLoop_ok_mem {repo : String}
    {df : String → Except String HttpResp} :
    ∀ {xs out : List JVal}, commitsLoop repo df xs = .ok out →
      ∀ j ∈ out, ∃ c ∈ xs, ∃ shaV shaStr dresp,
        pyIndex c "sha" = .ok shaV ∧ pyToStr shaV = .ok shaStr ∧
        df shaStr = .ok dresp ∧ commitItem repo c dresp = .ok j := by
  intro xs
  induction xs with
  | nil => intro out h; simp [commitsLoop] at h; simp [h]
  | cons c cs ih =>
    intro out h
    unfold commitsLoop at h
    rcases bind_eq_ok.mp h with ⟨shaV, h1, h⟩
    rcases bind_eq_ok.mp h with ⟨shaStr, h2, h⟩
    rcases bind_eq_ok.mp h with ⟨dresp, h3, h⟩
    rcases bind_eq_ok.mp h with ⟨item, h4, h⟩
    rcases bind_eq_ok.mp h with ⟨rest, h5, h⟩
    cases h
    intro j hj
    rcases List.mem_cons.mp hj with hj | hj
    · exact ⟨c, List.mem_cons_self c cs, shaV, shaStr, dresp, h1, h2, h3, hj ▸ h4⟩
    · obtain ⟨c2, hc2, w1, w2, w3, p1, p2, p3, p4⟩ := ih h5 j hj
      exact ⟨c2, List.mem_cons_of_mem c hc2, w1, w2, w3, p1, p2, p3, p4⟩

/-- A successful user-repository loop behaves as translate-after-filter on
the ownership test. -/
theorem userReposLoop_ok {username : String} :
    ∀ {xs out : List JVal}, userReposLoop username xs = .ok out →
      mapE translateUserRepo (xs.filter (ownedByB username)) = .ok out := by
  intro xs
  induction xs with
  | nil => intro out h; simpa [userReposLoop, mapE] using h
  | cons r rs ih =>
    intro out h
    unfold userReposLoop at h
    rcases bind_eq_ok.mp h with ⟨keep, hk, h⟩
    have hown : ownedByB username r = keep := by simp [ownedByB, hk]
    cases keep with
    | false =>
      rw [if_neg (by simp)] at h
      simp only [List.filter_cons, hown]
      simpa using ih h
    | true =>
      rw [if_pos rfl] at h
      rcases bind_eq_ok.mp h with ⟨t, ht, h⟩
      rcases bind_eq_ok.mp h with ⟨ts, hts, h⟩
      cases h
      simp only [List.filter_cons, hown, if_pos, mapE, bind_eq_ok]
      exact ⟨t, ht, ts, ih hts, rfl⟩

/-- Inversion of a successful issue translation: the output is the summary
object literal, its priority field being the source priority computation of
the (possibly defaulted) label list of the issue. -/
theorem translateIssue_ok_inv {repo : String} {issue out : JVal}
    (h : translateIssue repo issue = .ok out) :
    ∃ (labels : List JVal) (priority idStr : String)
      (title authorLogin state htmlUrl createdAt updatedAt body : JVal)
      (labelNames assigneeLogins : List JVal)
      (comments avatar milestone locked closedAt rT rU rD rL rH rC rHe : JVal),
      pyGet issue "labels" (.jArr []) = .ok (.jArr labels) ∧
      issuePriority labels = .ok priority ∧
      out = .jObj [
        ("id", .jStr idStr), ("title", title), ("author", authorLogin),
        ("status", state), ("priority", .jStr priority),
        ("repository", .jStr repo), ("url", htmlUrl),
        ("createdAt", createdAt), ("updatedAt", updatedAt),
        ("description", body), ("labels", .jArr labelNames),
        ("assignees", .jArr assigneeLogins), ("comments", comments),
        ("author_avatar", avatar), ("milestone", milestone),
        ("locked", locked), ("closed_at", closedAt),
        ("reactions", .jObj [
          ("total_count", rT), ("thumbs_up", rU), ("thumbs_down", rD),
          ("laugh", rL), ("hooray", rH), ("confused", rC),
          ("heart", rHe)])] := by
  unfold translateIssue at h
  rcases bind_eq_ok.mp h with ⟨labelsV, h1, h⟩
  rcases bind_eq_ok.mp h with ⟨labels, h2, h⟩
  rcases bind_eq_ok.mp h with ⟨priority, h3, h⟩
  rcases bind_eq_ok.mp h with ⟨number, h4, h⟩
  rcases bind_eq_ok.mp h with ⟨idStr, h5, h⟩
  rcases bind_eq_ok.mp h with ⟨title, h6, h⟩
  rcases bind_eq_ok.mp h with ⟨user, h7, h⟩
  rcases bind_eq_ok.mp h with ⟨authorLogin, h8, h⟩
  rcases bind_eq_ok.mp h with ⟨state, h9, h⟩
  rcases bind_eq_ok.mp h with ⟨htmlUrl, h10, h⟩
  rcases bind_eq_ok.mp h with ⟨createdAt, h11, h⟩
  rcases bind_eq_ok.mp h with ⟨updatedAt, h12, h⟩
  rcases bind_eq_ok.mp h with ⟨body, h13, h⟩
  rcases bind_eq_ok.mp h with ⟨labelNames, h14, h⟩
  rcases bind_eq_ok.mp h with ⟨assigneesV, h15, h⟩
  rcases bind_eq_ok.mp h with ⟨assigneesList, h16, h⟩
  rcases bind_eq_ok.mp h with ⟨assigneeLogins, h17, h⟩
  rcases bind_eq_ok.mp h with ⟨comments, h18, h⟩
  rcases bind_eq_ok.mp h with ⟨avatar, h19, h⟩
  rcases bind_eq_ok.mp h with ⟨msV, h20, h⟩
  rcases bind_eq_ok.mp h with ⟨milestone, h21, h⟩
  rcases bind_eq_ok.mp h with ⟨locked, h22, h⟩
  rcases bind_eq_ok.mp h with ⟨closedAt, h23, h⟩
  rcases bind_eq_ok.mp h with ⟨reactions, h24, h⟩
  rcases bind_eq_ok.mp h with ⟨rT, h25, h⟩
  rcases bind_eq_ok.mp h with ⟨rU, h26, h⟩
  rcases bind_eq_ok.mp h with ⟨rD, h27, h⟩
  rcases bind_eq_ok.mp h with ⟨rL, h28, h⟩
  rcases bind_eq_ok.mp h with ⟨rH, h29, h⟩
  rcases bind_eq_ok.mp h with ⟨rC, h30, h⟩
  rcases bind_eq_ok.mp h with ⟨rHe, h31, h⟩
  cases h
  rw [asArr_ok.mp h2] at h1
  exact ⟨labels, priority, idStr, title, authorLogin, state, htmlUrl,
    createdAt, updatedAt, body, labelNames, assigneeLogins, comments, avatar,
    milestone, locked, closedAt, rT, rU, rD, rL, rH, rC, rHe, h1, h3, rfl⟩

/-- Inversion of a successful basic commit translation: the output is the
summary object literal with the extended counters zeroed. -/
theorem translateCommitBasic_ok_inv {repo : String} {c out : JVal}
    (h : translateCommitBasic repo c = .ok out) :
    ∃ (shortId message authorName date htmlUrl avatar : JVal),
      out = .jObj [
        ("id", shortId), ("message", message), ("author", authorName),
        ("date", date), ("repository", .jStr repo), ("url", htmlUrl),
        ("description", message), ("files_changed", .jNum 0),
        ("additions", .jNum 0), ("deletions", .jNum 0),
        ("commit_url", htmlUrl), ("author_avatar", avatar)] := by
  unfold translateCommitBasic at h
  rcases bind_eq_ok.mp h with ⟨sha, h1, h⟩
  rcases bind_eq_ok.mp h with ⟨shortId, h2, h⟩
  rcases bind_eq_ok.mp h with ⟨inner, h3, h⟩
  rcases bind_eq_ok.mp h with ⟨message, h4, h⟩
  rcases bind_eq_ok.mp h with ⟨authorObj, h5, h⟩
  rcases bind_eq_ok.mp h with ⟨authorName, h6, h⟩
  rcases bind_eq_ok.mp h with ⟨date, h7, h⟩
  rcases bind_eq_ok.mp h with ⟨htmlUrl, h8, h⟩
  rcases bind_eq_ok.mp h with ⟨avatarCond, h9, h⟩
  rcases bind_eq_ok.mp h with ⟨avatar, h10, h⟩
  cases h
  exact ⟨shortId, message, authorName, date, htmlUrl, avatar, rfl⟩

/-- A boolean scan is invariant under permutation of the list. -/
theorem any_perm {α : Type} {l m : List α} (h : l.Perm m) (p : α → Bool) :
    l.any p = m.any p := by
  cases ha : l.any p <;> cases hb : m.any p <;>
    simp_all [List.any_eq_true, h.mem_iff]
  · obtain ⟨x, hx, hpx⟩ := hb
    exact absurd hpx (by simp [ha x hx])
  · obtain ⟨x, hx, hpx⟩ := ha
    exact absurd hpx (by simp [hb x hx])

/-- Labels related pointwise to a list of names: each label is an object
whose "name" field is the corresponding name string (other fields free). -/
def LabelsNamed (ls : List JVal) (ns : List String) : Prop :=
  List.Forall₂ (fun l n => pyIndex l "name" = .ok (.jStr n)) ls ns

/-- The label scan over labels named by `ns` is the boolean scan of the
lowered names. -/
theorem anyLabelHas_of_named {ls : List JVal} {ns : List String}
    (h : LabelsNamed ls ns) (sub : String) :
    anyLabelHas sub ls = .ok (ns.any fun n => strHas (strLower n) sub) := by
  induction h with
  | nil => rfl
  | cons hrel hrest ih =>
    rename_i l n ls2 ns2
    by_cases hs : strHas (strLower n) sub <;>
      simp [anyLabelHas, hrel, hs, ih]

/-- The source priority computation on labels named by `ns` agrees with the
name-level priority derivation. -/
theorem issuePriority_of_named {ls : List JVal} {ns : List String}
    (h : LabelsNamed ls ns) :
    issuePriority ls = .ok (priorityFromNames ns) := by
  by_cases h1 : ns.any fun n => strHas (strLower n) "high" <;>
    by_cases h2 : ns.any fun n => strHas (strLower n) "low" <;>
      simp [issuePriority, anyLabelHas_of_named h, priorityFromNames, h1, h2]

/-- Claim C2: the entity translators (repository, user, commit with and
without detail, pull request, issue) are pure total functions: on any
upstream object with any subset of optional fields missing they produce the
summary object with the documented defaults substituted, never failing on a
missing optional field. -/
theorem claim_C2 :
    (∀ r : UpRepo, translateRepo r.toJson = .ok (specRepoSummary r)) ∧
    (∀ u : UpUser, translateUser u.toJson = .ok (specUserSummary u)) ∧
    (∀ (repo : String) (c : UpCommit),
      translateCommitBasic repo c.toJson = .ok (specCommitBasic repo c)) ∧
    (∀ (repo : String) (c : UpCommit) (d : UpCommitDetail),
      translateCommitDetailed repo c.toJson d.toJson = .ok (specCommitDetailed repo c d)) ∧
    (∀ (repo : String) (p : UpPR),
      translatePullRequest repo p.toJson = .ok (specPRSummary repo p)) ∧
    (∀ (repo : String) (i : UpIssue),
      translateIssue repo i.toJson = .ok (specIssueSummary repo i)) :=
  ⟨translateRepo_total, translateUser_total, translateCommitBasic_total,
    translateCommitDetailed_total, translatePullRequest_total,
    translateIssue_total⟩

/-- Claim C4: with the upstream credential unset, every data endpoint returns
the token-error body, and the result is independent of every upstream
response (no upstream call is consumed). -/
theorem claim_C4 :
    (∀ (o : Oracle) (org repo : String),
      get_github_data none o org repo = tokenErrorBody) ∧
    (∀ (o : Oracle) (username : String),
      get_github_user none o username = tokenErrorBody) ∧
    (∀ (o : Oracle) (username : String),
      get_user_repositories_detailed none o username = tokenErrorBody) ∧
    (∀ (o : Oracle) (username repo_name : String),
      get_user_repository_detailed none o username repo_name = tokenErrorBody) ∧
    (∀ (o1 o2 : Oracle) (org repo : String),
      get_github_data none o1 org repo = get_github_data none o2 org repo) ∧
    (∀ (o1 o2 : Oracle) (username : String),
      get_github_user none o1 username = get_github_user none o2 username) ∧
    (∀ (o1 o2 : Oracle) (username : String),
      get_user_repositories_detailed none o1 username =
        get_user_repositories_detailed none o2 username) ∧
    (∀ (o1 o2 : Oracle) (username repo_name : String),
      get_user_repository_detailed none o1 username repo_name =
        get_user_repository_detailed none o2 username repo_name) :=
  ⟨fun _ _ _ => rfl, fun _ _ => rfl, fun _ _ => rfl, fun _ _ _ => rfl,
    fun _ _ _ _ => rfl, fun _ _ _ => rfl, fun _ _ _ => rfl, fun _ _ _ _ => rfl⟩

/-- Claim C3 (amended): on any received non-success HTTP status every
upstream accessor returns its endpoint-specific sentinel fallback instead of
failing; a transport failure, by contrast, propagates (see the
counterexample). -/
theorem claim_C3 :
    ∀ (org repo_name username : String) (resp : HttpResp)
      (df : String → Except String HttpResp), resp.status ≠ 200 →
      get_organization_data org (.ok resp) =
        .ok (.jObj [("name", .jStr org),
          ("description", .jStr (org ++ " Organization"))]) ∧
      get_repository_data repo_name (.ok resp) =
        .ok (.jObj [("name", .jStr repo_name),
          ("description", .jStr "Repository not found")]) ∧
      get_repository_commits repo_name (.ok resp) df = .ok [] ∧
      get_repository_pull_requests repo_name (.ok resp) = .ok [] ∧
      get_repository_issues repo_name (.ok resp) = .ok [] ∧
      get_user_data username (.ok resp) =
        .ok (.jObj [("username", .jStr username), ("name", .jStr username)]) ∧
      get_user_repositories username (.ok resp) = .ok [] := by
  intro org repo_name username resp df h
  refine ⟨?_, ?_, ?_, ?_, ?_, ?_, ?_⟩ <;>
    simp [get_organization_data, get_repository_data, get_repository_commits,
      get_repository_pull_requests, get_repository_issues, get_user_data,
      get_user_repositories, h]

/-- Claim C3 counterexample: a transport failure is not converted to a
sentinel fallback; it propagates out of the upstream accessors as a raised
fault (the surrounding handler, not the accessor, turns it into an error
body). -/
theorem claim_C3_cex :
    get_repository_data "vscode" (.error "connection error") =
      .error "connection error" ∧
    get_repository_commits "vscode" (.error "connection error")
      (fun _ => .ok ⟨200, .jNull⟩) = .error "connection error" ∧
    get_repository_data "vscode" (.error "connection error") ≠
      .ok (.jObj [("name", .jStr "vscode"),
        ("description", .jStr "Repository not found")]) ∧
    get_repository_commits "vscode" (.error "connection error")
      (fun _ => .ok ⟨200, .jNull⟩) ≠ .ok [] := by
  refine ⟨rfl, rfl, ?_, ?_⟩ <;> simp [get_repository_data,
    get_repository_commits]

/-- Claim C5: every commit, pull-request, or issue list produced from an
upstream response has at most 10 elements. -/
theorem claim_C5 :
    (∀ (repo : String) (fetch : Except String HttpResp)
      (df : String → Except String HttpResp) (out : List JVal),
      get_repository_commits repo fetch df = .ok out → out.length ≤ 10) ∧
    (∀ (repo : String) (fetch : Except String HttpResp) (out : List JVal),
      get_repository_pull_requests repo fetch = .ok out → out.length ≤ 10) ∧
    (∀ (repo : String) (fetch : Except String HttpResp) (out : List JVal),
      get_repository_issues repo fetch = .ok out → out.length ≤ 10) := by
  refine ⟨?_, ?_, ?_⟩
  · intro repo fetch df out h
    unfold get_repository_commits at h
    cases fetch with
    | error e => simp at h
    | ok resp =>
      rw [ok_bind] at h
      by_cases hs : resp.status = 200
      · rw [if_pos hs] at h
        rcases bind_eq_ok.mp h with ⟨commits, hc, h⟩
        rw [commitsLoop_ok_length h]
        simpa using List.length_take_le 10 commits
      · rw [if_neg hs] at h
        cases h
        simp
  · intro repo fetch out h
    unfold get_repository_pull_requests at h
    cases fetch with
    | error e => simp at h
    | ok resp =>
      rw [ok_bind] at h
      by_cases hs : resp.status = 200
      · rw [if_pos hs] at h
        rcases bind_eq_ok.mp h with ⟨prs, hp, h⟩
        rw [mapE_ok_length h]
        simpa using List.length_take_le 10 prs
      · rw [if_neg hs] at h
        cases h
        simp
  · intro repo fetch out h
    unfold get_repository_issues at h
    cases fetch with
    | error e => simp at h
    | ok resp =>
      rw [ok_bind] at h
      by_cases hs : resp.status = 200
      · rw [if_pos hs] at h
        rcases bind_eq_ok.mp h with ⟨issues, hi, h⟩
        rw [mapE_ok_length (issuesLoop_ok h)]
        calc ((issues.take 10).filter fun i => !hasPRMark i).length
            ≤ (issues.take 10).length := List.length_filter_le _ _
          _ ≤ 10 := by simpa using List.length_take_le 10 issues
      · rw [if_neg hs] at h
        cases h
        simp

/-- A successful issues aggregation over an array body is the element-wise
translation of the non-pull-request entries among the first ten. -/
theorem get_repository_issues_ok_arr {repo : String} {xs out : List JVal}
    (h : get_repository_issues repo (.ok ⟨200, .jArr xs⟩) = .ok out) :
    mapE (translateIssue repo) ((xs.take 10).filter fun i => !hasPRMark i) =
      .ok out := by
  unfold get_repository_issues at h
  rw [ok_bind] at h
  rw [if_pos rfl] at h
  rcases bind_eq_ok.mp h with ⟨issues, hi, h⟩
  have hx : xs = issues := by simpa [asArr] using hi
  subst hx
  exact issuesLoop_ok h

/-- Claim C6: no element of a returned issue list carries a pull-request
marker: every returned summary arises from a first-ten entry on which the
marker test is false, and the summary object itself has no "pull_request"
key. -/
theorem claim_C6 :
    ∀ (repo : String) (xs out : List JVal),
      get_repository_issues repo (.ok ⟨200, .jArr xs⟩) = .ok out →
      ∀ j ∈ out,
        (∃ i ∈ xs.take 10, hasPRMark i = false ∧ translateIssue repo i = .ok j) ∧
        objLookup j "pull_request" = none := by
  intro repo xs out h j hj
  obtain ⟨i, hi, htr⟩ := mapE_ok_mem (get_repository_issues_ok_arr h) j hj
  obtain ⟨himem, hikeep⟩ := List.mem_filter.mp hi
  refine ⟨⟨i, himem, by simpa using hikeep, htr⟩, ?_⟩
  obtain ⟨labels, priority, idStr, t1, t2, t3, t4, t5, t6, t7, l1, l2, c1, c2,
    c3, c4, c5, r1, r2, r3, r4, r5, r6, r7, hLab, hPri, hOut⟩ :=
    translateIssue_ok_inv htr
  subst hOut
  simp [objLookup]

/-- Claim C10: in `get_repository_issues` the pull-request filter runs after
the ten-element truncation: the returned list is the translation of exactly
the unmarked entries among the first ten upstream elements, so its length is
the number of those entries, and any marked entry among the first ten forces
fewer than ten returned issues. -/
theorem claim_C10 :
    ∀ (repo : String) (xs out : List JVal),
      get_repository_issues repo (.ok ⟨200, .jArr xs⟩) = .ok out →
      mapE (translateIssue repo)
        ((xs.take 10).filter fun i => !hasPRMark i) = .ok out ∧
      out.length = ((xs.take 10).filter fun i => !hasPRMark i).length ∧
      ((∃ i ∈ xs.take 10, hasPRMark i = true) → out.length < 10) := by
  intro repo xs out h
  have hchar := get_repository_issues_ok_arr h
  refine ⟨hchar, mapE_ok_length hchar, ?_⟩
  intro hex
  rw [mapE_ok_length hchar]
  obtain ⟨i, hi, hmark⟩ := hex
  calc ((xs.take 10).filter fun i => !hasPRMark i).length
      < (xs.take 10).length := by
        refine List.length_filter_lt_length_iff_exists.mpr ⟨i, hi, ?_⟩
        simp [hmark]
    _ ≤ 10 := by simpa using List.length_take_le 10 xs

/-- Claim C1: the priority of every returned issue is derived from its label
names with high/low/medium precedence — a label name containing "high"
(case-insensitively) forces high, else one containing "low" forces low, else
medium — the result is invariant under label order, and every returned issue
is the translation of a first-ten upstream entry. -/
theorem claim_C1 :
    (∀ (repo : String) (issue : JVal) (ls : List JVal) (ns : List String)
      (out : JVal),
      pyGet issue "labels" (.jArr []) = .ok (.jArr ls) →
      LabelsNamed ls ns →
      translateIssue repo issue = .ok out →
      objLookup out "priority" = some (.jStr (priorityFromNames ns))) ∧
    (∀ ns : List String,
      ((∃ n ∈ ns, strHas (strLower n) "high" = true) →
        priorityFromNames ns = "high") ∧
      ((¬∃ n ∈ ns, strHas (strLower n) "high" = true) →
        (∃ n ∈ ns, strHas (strLower n) "low" = true) →
        priorityFromNames ns = "low") ∧
      ((¬∃ n ∈ ns, strHas (strLower n) "high" = true) →
        (¬∃ n ∈ ns, strHas (strLower n) "low" = true) →
        priorityFromNames ns = "medium")) ∧
    (∀ ns ms : List String, ns.Perm ms →
      priorityFromNames ns = priorityFromNames ms) ∧
    (∀ (repo : String) (xs out : List JVal),
      get_repository_issues repo (.ok ⟨200, .jArr xs⟩) = .ok out →
      ∀ j ∈ out, ∃ i ∈ xs.take 10, translateIssue repo i = .ok j) := by
  refine ⟨?_, ?_, ?_, ?_⟩
  · intro repo issue ls ns out hget hnamed htr
    obtain ⟨labels, priority, idStr, t1, t2, t3, t4, t5, t6, t7, l1, l2, c1,
      c2, c3, c4, c5, r1, r2, r3, r4, r5, r6, r7, hLab, hPri, hOut⟩ :=
      translateIssue_ok_inv htr
    rw [hget] at hLab
    have hls : labels = ls := by
      have := (Except.ok.injEq _ _).mp hLab
      exact (JVal.jArr.injEq _ _).mp this.symm
    subst hls
    rw [issuePriority_of_named hnamed] at hPri
    have hpr : priority = priorityFromNames ns :=
      ((Except.ok.injEq _ _).mp hPri).symm
    subst hpr
    subst hOut
    simp [objLookup]
  · intro ns
    refine ⟨?_, ?_, ?_⟩
    · intro hex
      have : (ns.any fun n => strHas (strLower n) "high") = true :=
        List.any_eq_true.mpr hex
      simp [priorityFromNames, this]
    · intro hnot hex
      have h1 : (ns.any fun n => strHas (strLower n) "high") = false := by
        rw [← Bool.not_eq_true]
        exact fun hc => hnot (List.any_eq_true.mp hc)
      have h2 : (ns.any fun n => strHas (strLower n) "low") = true :=
        List.any_eq_true.mpr hex
      simp [priorityFromNames, h1, h2]
    · intro hn1 hn2
      have h1 : (ns.any fun n => strHas (strLower n) "high") = false := by
        rw [← Bool.not_eq_true]
        exact fun hc => hn1 (List.any_eq_true.mp hc)
      have h2 : (ns.any fun n => strHas (strLower n) "low") = false := by
        rw [← Bool.not_eq_true]
        exact fun hc => hn2 (List.any_eq_true.mp hc)
      simp [priorityFromNames, h1, h2]
  · intro ns ms hperm
    simp [priorityFromNames, any_perm hperm]
  · intro repo xs out h j hj
    obtain ⟨i, hi, htr⟩ := mapE_ok_mem (get_repository_issues_ok_arr h) j hj
    exact ⟨i, (List.mem_filter.mp hi).1, htr⟩

/-- A successful commits aggregation over an array body is the commits loop
over the first ten elements. -/
theorem get_repository_commits_ok_arr {repo : String}
    {df : String → Except String HttpResp} {xs out : List JVal}
    (h : get_repository_commits repo (.ok ⟨200, .jArr xs⟩) df = .ok out) :
    commitsLoop repo df (xs.take 10) = .ok out := by
  unfold get_repository_commits at h
  rw [ok_bind] at h
  rw [if_pos rfl] at h
  rcases bind_eq_ok.mp h with ⟨cs, hcs, h⟩
  have hx : xs = cs := by simpa [asArr] using hcs
  subst hx
  exact h

/-- Claim C7 (amended): the basic commit summary zeroes the extended
counters; the per-commit branch takes the basic summary exactly when the
detail fetch returned a non-success status and the detailed one on success;
and every returned summary is the branch result of a first-ten commit at its
own detail response, one summary per commit.  A transport failure of the
detail fetch, by contrast, fails the whole request (see the
counterexample). -/
theorem claim_C7 :
    (∀ (repo : String) (c out : JVal), translateCommitBasic repo c = .ok out →
      objLookup out "files_changed" = some (.jNum 0) ∧
      objLookup out "additions" = some (.jNum 0) ∧
      objLookup out "deletions" = some (.jNum 0)) ∧
    (∀ (repo : String) (c : JVal) (dresp : HttpResp), dresp.status ≠ 200 →
      commitItem repo c dresp = translateCommitBasic repo c) ∧
    (∀ (repo : String) (c : JVal) (dresp : HttpResp), dresp.status = 200 →
      commitItem repo c dresp = translateCommitDetailed repo c dresp.body) ∧
    (∀ (repo : String) (df : String → Except String HttpResp)
      (xs out : List JVal),
      get_repository_commits repo (.ok ⟨200, .jArr xs⟩) df = .ok out →
      out.length = (xs.take 10).length ∧
      ∀ j ∈ out, ∃ c ∈ xs.take 10, ∃ shaV, ∃ shaStr, ∃ dresp,
        pyIndex c "sha" = .ok shaV ∧ pyToStr shaV = .ok shaStr ∧
        df shaStr = .ok dresp ∧ commitItem repo c dresp = .ok j) := by
  refine ⟨?_, ?_, ?_, ?_⟩
  · intro repo c out h
    obtain ⟨shortId, message, authorName, date, htmlUrl, avatar, hOut⟩ :=
      translateCommitBasic_ok_inv h
    subst hOut
    refine ⟨?_, ?_, ?_⟩ <;> simp [objLookup]
  · intro repo c dresp h
    unfold commitItem
    rw [if_neg h]
  · intro repo c dresp h
    unfold commitItem
    rw [if_pos h]
  · intro repo df xs out h
    have hloop := get_repository_commits_ok_arr h
    exact ⟨commitsLoop_ok_length hloop, commitsLoop_ok_mem hloop⟩

/-- Claim C7 counterexample: when the per-commit detail fetch fails in
transport, the commit summary is not returned with zeroed counters; the
whole commits request fails. -/
theorem claim_C7_cex :
    get_repository_commits "vscode"
      (.ok ⟨200, .jArr [.jObj [("sha", .jStr "abc1234def")]]⟩)
      (fun _ => .error "connection error") = .error "connection error" ∧
    get_repository_commits "vscode"
      (.ok ⟨200, .jArr [.jObj [("sha", .jStr "abc1234def")]]⟩)
      (fun _ => .error "connection error") ≠
      .ok [.jObj [("sha", .jStr "abc1234def")]] := by
  refine ⟨rfl, ?_⟩
  simp [get_repository_commits, asArr, commitsLoop, pyIndex, pyToStr]

/-- Claim C8: when the repository-details call returns a non-success status
the placeholder repository object is substituted, and the whole bundle is
still assembled and returned around it. -/
theorem claim_C8 :
    (∀ (repo_name : String) (resp : HttpResp), resp.status ≠ 200 →
      get_repository_data repo_name (.ok resp) =
        .ok (.jObj [("name", .jStr repo_name),
          ("description", .jStr "Repository not found")])) ∧
    (∀ (token : Option String) (o : Oracle) (org repo : String)
      (resp : HttpResp) (og : JVal) (cs ps iss authors : List JVal)
      (active : Int),
      tokenMissing token = false →
      o.repoFetch = .ok resp → resp.status ≠ 200 →
      get_organization_data org o.orgFetch = .ok og →
      get_repository_commits repo o.commitsFetch o.commitDetailFetch = .ok cs →
      get_repository_pull_requests repo o.prsFetch = .ok ps →
      get_repository_issues repo o.issuesFetch = .ok iss →
      mapIndexKey "author" cs = .ok authors →
      pySetSize authors = .ok active →
      get_github_data token o org repo = .jObj [
        ("organization", og),
        ("repository", .jObj [("name", .jStr repo),
          ("description", .jStr "Repository not found")]),
        ("commits", .jArr cs), ("pullRequests", .jArr ps),
        ("issues", .jArr iss),
        ("stats", .jObj [
          ("totalCommits", .jNum cs.length),
          ("totalPRs", .jNum ps.length),
          ("totalIssues", .jNum iss.length),
          ("activeContributors", .jNum active),
          ("repositoriesCount", .jNum 1)])]) := by
  refine ⟨?_, ?_⟩
  · intro repo_name resp h
    simp [get_repository_data, h]
  · intro token o org repo resp og cs ps iss authors active htok hrepo hst
      horg hcom hpr hiss hauth hact
    have hrd : get_repository_data repo o.repoFetch =
        .ok (.jObj [("name", .jStr repo),
          ("description", .jStr "Repository not found")]) := by
      rw [hrepo]
      simp [get_repository_data, hst]
    unfold get_github_data
    rw [htok]
    simp only [Bool.false_eq_true, if_false]
    have hcore : get_github_data_core o org repo = .ok (.jObj [
        ("organization", og),
        ("repository", .jObj [("name", .jStr repo),
          ("description", .jStr "Repository not found")]),
        ("commits", .jArr cs), ("pullRequests", .jArr ps),
        ("issues", .jArr iss),
        ("stats", .jObj [
          ("totalCommits", .jNum cs.length),
          ("totalPRs", .jNum ps.length),
          ("totalIssues", .jNum iss.length),
          ("activeContributors", .jNum active),
          ("repositoriesCount", .jNum 1)])]) := by
      unfold get_github_data_core
      rw [horg, ok_bind, hrd, ok_bind, hcom, ok_bind, hpr, ok_bind, hiss,
        ok_bind, hauth, ok_bind, hact, ok_bind]
    rw [hcore]
    rfl

/-- A successful user-repository aggregation over an array body is the
element-wise translation of the entries owned by the requested login. -/
theorem get_user_repositories_ok_arr {username : String} {xs out : List JVal}
    (h : get_user_repositories username (.ok ⟨200, .jArr xs⟩) = .ok out) :
    mapE translateUserRepo (xs.filter (ownedByB username)) = .ok out := by
  unfold get_user_repositories at h
  rw [ok_bind] at h
  rw [if_pos rfl] at h
  rcases bind_eq_ok.mp h with ⟨rs, hrs, h⟩
  have hx : xs = rs := by simpa [asArr] using hrs
  subst hx
  exact userReposLoop_ok h

/-- Claim C9: the user-repositories result is the translation of exactly the
upstream entries whose owner login equals the requested username, and the
detailed bundle field `total_repos` equals the length of that filtered list. -/
theorem claim_C9 :
    (∀ (username : String) (xs out : List JVal),
      get_user_repositories username (.ok ⟨200, .jArr xs⟩) = .ok out →
      mapE translateUserRepo (xs.filter (ownedByB username)) = .ok out ∧
      out.length = (xs.filter (ownedByB username)).length) ∧
    (∀ (token : Option String) (o : Oracle) (username : String)
      (xs : List JVal) (u : JVal),
      tokenMissing token = false →
      o.userReposFetch = .ok ⟨200, .jArr xs⟩ →
      get_user_data username o.userFetch = .ok u →
      objLookup (get_user_repositories_detailed token o username) "error" =
        none →
      objLookup (get_user_repositories_detailed token o username)
        "total_repos" =
        some (.jNum ((xs.filter (ownedByB username)).length))) := by
  refine ⟨?_, ?_⟩
  · intro username xs out h
    have hchar := get_user_repositories_ok_arr h
    exact ⟨hchar, mapE_ok_length hchar⟩
  · intro token o username xs u htok hfetch huser herrnone
    unfold get_user_repositories_detailed at herrnone ⊢
    rw [htok] at herrnone ⊢
    simp only [Bool.false_eq_true, if_false] at herrnone ⊢
    cases hcore : get_user_repositories_detailed_core o username with
    | error e =>
      rw [hcore] at herrnone
      simp [envelope, objLookup] at herrnone
    | ok v =>
      unfold get_user_repositories_detailed_core at hcore
      simp only [huser, ok_bind] at hcore
      rcases bind_eq_ok.mp hcore with ⟨rs, hrs, hcore⟩
      rcases bind_eq_ok.mp hcore with ⟨privs, hprivs, hcore⟩
      rcases bind_eq_ok.mp hcore with ⟨pubs, hpubs, hcore⟩
      rcases bind_eq_ok.mp hcore with ⟨langsAll, hla, hcore⟩
      rcases bind_eq_ok.mp hcore with ⟨langs, hl, hcore⟩
      rcases bind_eq_ok.mp hcore with ⟨stars, hs, hcore⟩
      rcases bind_eq_ok.mp hcore with ⟨starsN, hsn, hcore⟩
      rcases bind_eq_ok.mp hcore with ⟨forks, hf, hcore⟩
      rcases bind_eq_ok.mp hcore with ⟨forksN, hfn, hcore⟩
      cases hcore
      rw [hfetch] at hrs
      have hlen := mapE_ok_length (get_user_repositories_ok_arr hrs)
      simp [envelope, objLookup, hlen]

/-- Concrete issue used by witnesses: two labels, one matching "high"
case-insensitively. -/
def wIssue : UpIssue :=
  ⟨7, .jStr "t", .jStr "alice", .jStr "av", .jStr "open", .jStr "u",
    .jStr "c", .jStr "d", none, some ["Bug", "Priority-HIGH"], none, none,
    none, none, none, none⟩

/-- Serialized witness issue. -/
def wIssueJson : JVal := wIssue.toJson

/-- Expected witness issue summary. -/
def wIssueOut : JVal := specIssueSummary "vscode" wIssue

/-- A pull-request entry as served by the issues endpoint. -/
def wPRIssue : JVal := .jObj [("pull_request", .jObj []), ("number", .jNum 99)]

/-- Concrete commit used by witnesses. -/
def wCommit : UpCommit :=
  ⟨"abcdef12345", .jStr "msg", .jStr "alice", .jStr "2024", .jStr "url", none⟩

/-- Serialized witness commit. -/
def wCommitJson : JVal := wCommit.toJson

/-- Expected witness basic commit summary. -/
def wCommitOut : JVal := specCommitBasic "vscode" wCommit

/-- Concrete pull request used by witnesses. -/
def wPR : UpPR :=
  ⟨5, .jStr "t", .jStr "alice", .jStr "av", .jStr "open", .jStr "u",
    .jStr "c", .jStr "d", none, none, none, none, none, none, none, none,
    none, none, none, none⟩

/-- Expected witness pull-request summary. -/
def wPROut : JVal := specPRSummary "vscode" wPR

/-- Detail fetch returning a non-success status for every commit. -/
def wDetailFail : String → Except String HttpResp := fun _ => .ok ⟨404, .jNull⟩

/-- Oracle on which every upstream call returns a 404. -/
def wOracle8 : Oracle :=
  ⟨.ok ⟨404, .jNull⟩, .ok ⟨404, .jNull⟩, .ok ⟨404, .jNull⟩,
    fun _ => .ok ⟨404, .jNull⟩, .ok ⟨404, .jNull⟩, .ok ⟨404, .jNull⟩,
    .ok ⟨404, .jNull⟩, .ok ⟨404, .jNull⟩⟩

/-- Upstream repository entry owned by alice, optional fields absent. -/
def wRepoAlice : JVal := .jObj [
  ("owner", .jObj [("login", .jStr "alice")]), ("id", .jNum 1),
  ("name", .jStr "r1"), ("full_name", .jStr "alice/r1"),
  ("stargazers_count", .jNum 3), ("forks_count", .jNum 1),
  ("updated_at", .jStr "2024"), ("html_url", .jStr "u"),
  ("private", .jBool false), ("fork", .jBool false)]

/-- Upstream repository entry owned by bob. -/
def wRepoBob : JVal := .jObj [
  ("owner", .jObj [("login", .jStr "bob")]), ("id", .jNum 2),
  ("name", .jStr "r2"), ("full_name", .jStr "bob/r2"),
  ("stargazers_count", .jNum 5), ("forks_count", .jNum 2),
  ("updated_at", .jStr "2024"), ("html_url", .jStr "u2"),
  ("private", .jBool false), ("fork", .jBool false)]

/-- Translated witness repository entry for alice. -/
def wAliceOut : JVal := .jObj [
  ("id", .jNum 1), ("name", .jStr "r1"), ("full_name", .jStr "alice/r1"),
  ("description", .jStr ""), ("language", .jStr "Unknown"),
  ("stargazers_count", .jNum 3), ("forks_count", .jNum 1),
  ("updated_at", .jStr "2024"), ("html_url", .jStr "u"),
  ("private", .jBool false), ("fork", .jBool false)]

/-- Oracle for the user-repositories witness: user fetch falls back, the
repository list holds one alice-owned and one bob-owned entry. -/
def wOracle9 : Oracle :=
  ⟨.ok ⟨404, .jNull⟩, .ok ⟨404, .jNull⟩, .ok ⟨404, .jNull⟩,
    fun _ => .ok ⟨404, .jNull⟩, .ok ⟨404, .jNull⟩, .ok ⟨404, .jNull⟩,
    .ok ⟨404, .jNull⟩, .ok ⟨200, .jArr [wRepoAlice, wRepoBob]⟩⟩

/-- Witness for claim C1: the witness issue, whose labels are Bug and
Priority-HIGH, is translated with priority high. -/
theorem claim_C1_witness :
    objLookup wIssueOut "priority" = some (.jStr "high") :=
  claim_C1.1 "vscode" wIssueJson
    (["Bug", "Priority-HIGH"].map fun n => .jObj [("name", .jStr n)])
    ["Bug", "Priority-HIGH"] wIssueOut (by rfl)
    (List.Forall₂.cons rfl (List.Forall₂.cons rfl List.Forall₂.nil)) (by rfl)

/-- Witness for claim C3: a 404 response makes every accessor return its
sentinel fallback. -/
theorem claim_C3_witness :
    get_organization_data "github" (.ok ⟨404, .jNull⟩) =
      .ok (.jObj [("name", .jStr "github"),
        ("description", .jStr "github Organization")]) ∧
    get_repository_data "vscode" (.ok ⟨404, .jNull⟩) =
      .ok (.jObj [("name", .jStr "vscode"),
        ("description", .jStr "Repository not found")]) ∧
    get_repository_commits "vscode" (.ok ⟨404, .jNull⟩) wDetailFail = .ok [] ∧
    get_repository_pull_requests "vscode" (.ok ⟨404, .jNull⟩) = .ok [] ∧
    get_repository_issues "vscode" (.ok ⟨404, .jNull⟩) = .ok [] ∧
    get_user_data "alice" (.ok ⟨404, .jNull⟩) =
      .ok (.jObj [("username", .jStr "alice"), ("name", .jStr "alice")]) ∧
    get_user_repositories "alice" (.ok ⟨404, .jNull⟩) = .ok [] :=
  claim_C3 "github" "vscode" "alice" ⟨404, .jNull⟩ wDetailFail (by decide)

/-- Witness for claim C5: concrete commit, pull-request, and issue responses
produce lists of length at most ten. -/
theorem claim_C5_witness :
    ([wCommitOut] : List JVal).length ≤ 10 ∧
    ([wPROut] : List JVal).length ≤ 10 ∧
    ([wIssueOut] : List JVal).length ≤ 10 :=
  ⟨claim_C5.1 "vscode" (.ok ⟨200, .jArr [wCommitJson]⟩) wDetailFail
      [wCommitOut] (by rfl),
    claim_C5.2.1 "vscode" (.ok ⟨200, .jArr [wPR.toJson]⟩) [wPROut] (by rfl),
    claim_C5.2.2 "vscode" (.ok ⟨200, .jArr [wPRIssue, wIssueJson]⟩)
      [wIssueOut] (by rfl)⟩

/-- Witness for claim C6: the translated witness issue carries no
pull-request key. -/
theorem claim_C6_witness :
    objLookup wIssueOut "pull_request" = none :=
  (claim_C6 "vscode" [wPRIssue, wIssueJson] [wIssueOut] (by rfl) wIssueOut
    (by simp)).2

/-- Witness for claim C7: the basic summary of the witness commit zeroes the
extended counters, and a 404 detail response selects the basic branch. -/
theorem claim_C7_witness :
    (objLookup wCommitOut "files_changed" = some (.jNum 0) ∧
      objLookup wCommitOut "additions" = some (.jNum 0) ∧
      objLookup wCommitOut "deletions" = some (.jNum 0)) ∧
    commitItem "vscode" wCommitJson ⟨404, .jNull⟩ =
      translateCommitBasic "vscode" wCommitJson :=
  ⟨claim_C7.1 "vscode" wCommitJson wCommitOut (by rfl),
    claim_C7.2.1 "vscode" wCommitJson ⟨404, .jNull⟩ (by decide)⟩

/-- Witness for claim C8: with every upstream call answering 404, the bundle
still returns with the placeholder repository and empty lists. -/
theorem claim_C8_witness :
    get_github_data (some "tok") wOracle8 "github" "vscode" = .jObj [
      ("organization", .jObj [("name", .jStr "github"),
        ("description", .jStr "github Organization")]),
      ("repository", .jObj [("name", .jStr "vscode"),
        ("description", .jStr "Repository not found")]),
      ("commits", .jArr []), ("pullRequests", .jArr []),
      ("issues", .jArr []),
      ("stats", .jObj [
        ("totalCommits", .jNum 0), ("totalPRs", .jNum 0),
        ("totalIssues", .jNum 0), ("activeContributors", .jNum 0),
        ("repositoriesCount", .jNum 1)])] :=
  claim_C8.2 (some "tok") wOracle8 "github" "vscode" ⟨404, .jNull⟩
    (.jObj [("name", .jStr "github"),
      ("description", .jStr "github Organization")])
    [] [] [] [] 0 rfl rfl (by decide) rfl rfl rfl rfl rfl rfl

/-- Witness for claim C9: of an alice-owned and a bob-owned upstream entry,
only the alice-owned one is returned for alice, and `total_repos` is 1. -/
theorem claim_C9_witness :
    (mapE translateUserRepo
        ([wRepoAlice, wRepoBob].filter (ownedByB "alice")) =
        .ok [wAliceOut] ∧
      ([wAliceOut] : List JVal).length =
        ([wRepoAlice, wRepoBob].filter (ownedByB "alice")).length) ∧
    objLookup (get_user_repositories_detailed (some "tok") wOracle9 "alice")
      "total_repos" = some (.jNum 1) :=
  ⟨claim_C9.1 "alice" [wRepoAlice, wRepoBob] [wAliceOut] (by rfl),
    claim_C9.2 (some "tok") wOracle9 "alice" [wRepoAlice, wRepoBob]
      (.jObj [("username", .jStr "alice"), ("name", .jStr "alice")])
      rfl rfl rfl (by rfl)⟩

/-- Witness for claim C10: a pull-request entry among the first ten upstream
entries makes the returned issue list shorter than ten. -/
theorem claim_C10_witness :
    ([wIssueOut] : List JVal).length < 10 :=
  (claim_C10 "vscode" [wPRIssue, wIssueJson] [wIssueOut] (by rfl)).2.2
    ⟨wPRIssue, by simp, by rfl⟩
